import Mathlib

/-!
Verification of the chess-master engine core against its specification.

This file gives a shallow embedding, in Lean 4, of the parts of the
JavaScript sources that the checked claims are about:

* `src/utils/bitboard.js` — the `BitBoard` class (two 32-bit words);
* `src/utils/chessLogic.js` — `Board`, `GameState`, `History`,
  `Board.makeMove`, `Board.undoMove`, `Board.zobristInit`,
  `Board.getEnPassantZobristIndex`, the move generators,
  `isInCheck`, `simulateMove`;
* `src/constants/gameConstants.js` — piece codes, castling masks and the
  Zobrist seed table;
* `src/players/Player.js` — `Player.PIECE_VALUES`;
* `src/players/BotPlayer.js` — difficulty configuration, move ordering
  (`MVVLVAOrdering`, killer moves, history heuristic, pawn-push bonus),
  `getLegalMovesForColor`, `quiescence`, `minimax`, `iterativeDeepening`,
  `applyImperfection`, `BotPlayer.makeMove`, `storeReport` and the
  process-wide report history.

Conventions of the embedding:

* JavaScript numbers that are always integral are modelled as `Nat` or
  `Int` (with `Int` wherever the source can produce negative values, e.g.
  row/column arithmetic in the move generators and the `-1` sentinels);
  `BigInt` Zobrist keys are 64-bit `Nat`s.
* Mutation is modelled by explicit state passing: every method that
  mutates `this` returns the updated value.
* `Math.random()` and `Date.now()` are external inputs; they are modelled
  as oracle streams in an `Env` record, consumed through counters that are
  threaded through the state.
* The static-evaluation heuristic objects (`MaterialHeuristic`,
  `CenterControlHeuristic`, …) only influence the *numeric scores* that the
  search compares; none of the claims below depends on those numbers, so the
  heuristic list of a bot is kept as a parameter (a list of named score
  functions) and every theorem about the search holds for an arbitrary
  heuristic list — in particular for the one the source installs.
-/

namespace ChessMaster

/-! ## Bit sets: `BitBoard` from `src/utils/bitboard.js`

The JS class stores two 32-bit words; all operations observe the words
through 32-bit bitwise operators, so the state is faithfully represented by
the unsigned value of each word (`low`, `high < 2^32`). -/

/-- `2^32`, the modulus of one 32-bit word. -/
def word32 : Nat := 4294967296

/-- JS `(~x) >>> 0` on a 32-bit word: complement within 32 bits. -/
def complement32 (n : Nat) : Nat := 4294967295 ^^^ (n % word32)

/-- The `BitBoard` class: `low` holds squares 0–31, `high` squares 32–63. -/
structure BitBoard where
  low : Nat
  high : Nat
deriving DecidableEq, Repr

/-- `BitBoard.setBit`. -/
def BitBoard.setBit (b : BitBoard) (square : Nat) : BitBoard :=
  if square < 32 then { b with low := b.low ||| (1 <<< square) }
  else { b with high := b.high ||| (1 <<< (square - 32)) }

/-- `BitBoard.clearBit` (`low &= ~(1 << square)`). -/
def BitBoard.clearBit (b : BitBoard) (square : Nat) : BitBoard :=
  if square < 32 then { b with low := b.low &&& complement32 (1 <<< square) }
  else { b with high := b.high &&& complement32 (1 <<< (square - 32)) }

/-- `BitBoard.getBit`; out-of-range squares yield `false` as in the source. -/
def BitBoard.getBit (b : BitBoard) (square : Nat) : Bool :=
  if 64 ≤ square then false
  else if square < 32 then b.low &&& (1 <<< square) != 0
  else b.high &&& (1 <<< (square - 32)) != 0

/-- `BitBoard.toggleBit`. -/
def BitBoard.toggleBit (b : BitBoard) (square : Nat) : BitBoard :=
  if square < 32 then { b with low := b.low ^^^ (1 <<< square) }
  else { b with high := b.high ^^^ (1 <<< (square - 32)) }

/-- `BitBoard.and`. -/
def BitBoard.band (a b : BitBoard) : BitBoard := ⟨a.low &&& b.low, a.high &&& b.high⟩

/-- `BitBoard.or`. -/
def BitBoard.bor (a b : BitBoard) : BitBoard := ⟨a.low ||| b.low, a.high ||| b.high⟩

/-- `BitBoard.xor`. -/
def BitBoard.bxor (a b : BitBoard) : BitBoard := ⟨a.low ^^^ b.low, a.high ^^^ b.high⟩

/-- `BitBoard.not`. -/
def BitBoard.bnot (a : BitBoard) : BitBoard := ⟨complement32 a.low, complement32 a.high⟩

/-- `BitBoard.isEmpty`. -/
def BitBoard.isEmpty (b : BitBoard) : Bool := b.low == 0 && b.high == 0

/-- The `while (w) { count++; w &= w - 1 }` loop of `BitBoard.popCount`.
The loop is written with a structural fuel argument so that the kernel can
evaluate it; fuel `n` always suffices because each iteration strictly
decreases the word (`w &&& (w-1) < w` for `w ≠ 0`). -/
def popCountGo : Nat → Nat → Nat
  | 0, _ => 0
  | fuel + 1, n => if n = 0 then 0 else 1 + popCountGo fuel (n &&& (n - 1))

/-- One word's bit count. -/
def popCountWord (n : Nat) : Nat := popCountGo n n

/-- `BitBoard.popCount`: both word loops, summed. -/
def BitBoard.popCount (b : BitBoard) : Nat := popCountWord b.low + popCountWord b.high

/-- The `while ((w & 1) === 0) { w >>>= 1; pos++ }` scan of `BitBoard.getLSB`,
with a structural fuel argument so that the kernel can evaluate it.  Fuel
`n` always suffices because the word halves each iteration.  The source
only runs this loop on a non-zero word; on `0` (where the JS loop would not
terminate) the scan returns `pos`, an arbitrary value never observed. -/
def lsbScanGo : Nat → Nat → Nat → Nat
  | 0, _, pos => pos
  | fuel + 1, n, pos =>
    if n &&& 1 = 0 then
      if n = 0 then pos else lsbScanGo fuel (n >>> 1) (pos + 1)
    else pos

/-- The LSB scan of one word starting at bit position `pos`. -/
def lsbScan (n pos : Nat) : Nat := lsbScanGo n n pos

theorem lsbScanGo_fuel (fuel n pos : Nat) (h : n ≤ fuel) :
    lsbScanGo fuel n pos = lsbScan n pos := by
  induction fuel using Nat.strong_induction_on generalizing n pos with
  | _ fuel ih =>
    rcases fuel with _ | fuel
    · have hn : n = 0 := by omega
      subst hn; rfl
    · by_cases h1 : n &&& 1 = 0
      · by_cases h0 : n = 0
        · subst h0; rfl
        · obtain ⟨k, hk⟩ : ∃ k, n = k + 1 := ⟨n - 1, by omega⟩
          subst hk
          have h1m := h1
          rw [Nat.and_one_is_mod] at h1m
          have hs : (k + 1) >>> 1 = (k + 1) / 2 := by
            simp [Nat.shiftRight_succ, Nat.shiftRight_zero]
          have hL : lsbScanGo (fuel + 1) (k + 1) pos
              = lsbScanGo fuel ((k + 1) >>> 1) (pos + 1) := by
            simp only [lsbScanGo]
            rw [if_pos h1, if_neg h0]
          have hR : lsbScan (k + 1) pos
              = lsbScanGo k ((k + 1) >>> 1) (pos + 1) := by
            rw [lsbScan]
            simp only [lsbScanGo]
            rw [if_pos h1, if_neg h0]
          rw [hL, hR, ih fuel (by omega) _ _ (by rw [hs]; omega),
            ih k (by omega) _ _ (by rw [hs]; omega)]
      · obtain ⟨k, hk⟩ : ∃ k, n = k + 1 := by
          refine ⟨n - 1, ?_⟩
          have : n ≠ 0 := by intro hc; subst hc; exact h1 rfl
          omega
        subst hk
        rw [lsbScan]
        simp only [lsbScanGo]
        simp only [if_neg h1]

theorem lsbScan_zero_word (pos : Nat) : lsbScan 0 pos = pos := rfl

theorem lsbScan_odd (n pos : Nat) (h1 : ¬ n &&& 1 = 0) : lsbScan n pos = pos := by
  obtain ⟨k, hk⟩ : ∃ k, n = k + 1 := by
    refine ⟨n - 1, ?_⟩
    have : n ≠ 0 := by intro hc; subst hc; exact h1 rfl
    omega
  subst hk
  rw [lsbScan]
  simp only [lsbScanGo]
  rw [if_neg h1]

theorem lsbScan_even (n pos : Nat) (h1 : n &&& 1 = 0) (h0 : n ≠ 0) :
    lsbScan n pos = lsbScan (n >>> 1) (pos + 1) := by
  obtain ⟨k, hk⟩ : ∃ k, n = k + 1 := ⟨n - 1, by omega⟩
  subst hk
  have h1m := h1
  rw [Nat.and_one_is_mod] at h1m
  have hs : (k + 1) >>> 1 = (k + 1) / 2 := by
    simp [Nat.shiftRight_succ, Nat.shiftRight_zero]
  rw [lsbScan]
  simp only [lsbScanGo]
  rw [if_pos h1, if_neg h0]
  exact lsbScanGo_fuel k ((k + 1) >>> 1) (pos + 1) (by rw [hs]; omega)

/-- `BitBoard.getLSB`: index of the least significant set bit, `-1` if empty. -/
def BitBoard.getLSB (b : BitBoard) : Int :=
  if b.low ≠ 0 then ((lsbScan b.low 0 : Nat) : Int)
  else if b.high ≠ 0 then ((lsbScan b.high 32 : Nat) : Int)
  else -1

/-- `BitBoard.popLSB`: returns the LSB index and the board with it cleared. -/
def BitBoard.popLSB (b : BitBoard) : Int × BitBoard :=
  let lsb := b.getLSB
  if lsb ≠ -1 then (lsb, b.clearBit lsb.toNat) else (lsb, b)

/-- `BitBoard.clone` is a value copy, hence the identity in this embedding. -/
def BitBoard.clone (b : BitBoard) : BitBoard := b

/-! ### Support lemmas for the `getLSB`/`popLSB` claim -/

theorem lsbScan_base (n p : Nat) : lsbScan n p = p + lsbScan n 0 := by
  induction n using Nat.strong_induction_on generalizing p with
  | _ n ih =>
    by_cases h1 : n &&& 1 = 0
    · by_cases h0 : n = 0
      · subst h0; simp [lsbScan_zero_word]
      · have hlt : n >>> 1 < n := by
          simpa [Nat.shiftRight_succ, Nat.shiftRight_zero] using
            Nat.div_lt_self (Nat.pos_of_ne_zero h0) (by omega : 1 < 2)
        rw [lsbScan_even n p h1 h0, lsbScan_even n 0 h1 h0,
          ih _ hlt (p + 1), ih _ hlt 1]
        omega
    · rw [lsbScan_odd n p h1, lsbScan_odd n 0 h1]; omega

theorem and_one_eq_zero_iff (n : Nat) : n &&& 1 = 0 ↔ n % 2 = 0 := by
  have h := Nat.and_one_is_mod n
  omega

theorem lsbScan_testBit (n : Nat) (h : n ≠ 0) :
    n.testBit (lsbScan n 0) = true ∧ ∀ j, j < lsbScan n 0 → n.testBit j = false := by
  induction n using Nat.strong_induction_on with
  | _ n ih =>
    by_cases h1 : n &&& 1 = 0
    · have hmod : n % 2 = 0 := (and_one_eq_zero_iff n).mp h1
      have hlt : n >>> 1 < n := by
        simpa [Nat.shiftRight_succ, Nat.shiftRight_zero] using
          Nat.div_lt_self (Nat.pos_of_ne_zero h) (by omega : 1 < 2)
      have hne : n >>> 1 ≠ 0 := by
        simp only [Nat.shiftRight_succ, Nat.shiftRight_zero]
        omega
      have hstep : lsbScan n 0 = lsbScan (n >>> 1) 0 + 1 := by
        rw [lsbScan_even n 0 h1 h, lsbScan_base]
        omega
      obtain ⟨ha, hb⟩ := ih _ hlt hne
      constructor
      · rw [hstep]
        have : n.testBit (lsbScan (n >>> 1) 0 + 1) = (n >>> 1).testBit (lsbScan (n >>> 1) 0) := by
          simp [Nat.testBit, Nat.shiftRight_succ_inside]
        rw [this, ha]
      · intro j hj
        rw [hstep] at hj
        match j with
        | 0 => simpa [Nat.testBit_zero] using hmod
        | j + 1 =>
          have : n.testBit (j + 1) = (n >>> 1).testBit j := by
            simp [Nat.testBit, Nat.shiftRight_succ_inside]
          rw [this]
          exact hb j (by omega)
    · have hmod : n % 2 = 1 := by
        have h2 := Nat.and_one_is_mod n
        omega
      have hzero : lsbScan n 0 = 0 := lsbScan_odd n 0 h1
      rw [hzero]
      exact ⟨by simpa [Nat.testBit_zero] using hmod, by omega⟩

theorem lsbScan_lt_of_lt (n w : Nat) (h : n ≠ 0) (hw : n < 2 ^ w) : lsbScan n 0 < w := by
  have ht := (lsbScan_testBit n h).1
  by_contra hcon
  have : n.testBit (lsbScan n 0) = false :=
    Nat.testBit_eq_false_of_lt (lt_of_lt_of_le hw (Nat.pow_le_pow_right (by omega) (by omega)))
  rw [ht] at this
  exact Bool.noConfusion this

theorem and_pow_ne_zero_iff (n j : Nat) : (n &&& (1 <<< j) ≠ 0) ↔ n.testBit j = true := by
  rw [Nat.shiftLeft_eq, one_mul, Nat.and_two_pow]
  rcases h : n.testBit j with _ | _
  · simp [h]
  · simp only [h, Bool.toNat_true, one_mul]
    exact ⟨fun _ => trivial, fun _ => (Nat.pow_pos (by omega)).ne'⟩

theorem complement32_spec (j k : Nat) (hj : j < 32) :
    (complement32 (1 <<< j)).testBit k = ((k < 32 : Bool) && !(k = j : Bool)) := by
  have hpow : (1 <<< j) = 2 ^ j := by rw [Nat.shiftLeft_eq, one_mul]
  have hmod : (2 ^ j) % word32 = 2 ^ j := by
    apply Nat.mod_eq_of_lt
    have : (2:Nat) ^ j < 2 ^ 32 := Nat.pow_lt_pow_right (by omega) hj
    simpa [word32] using this
  rw [complement32, hpow, hmod, Nat.testBit_xor]
  have hones : (4294967295 : Nat).testBit k = decide (k < 32) := by
    have h1 : (4294967295 : Nat) = 2 ^ 32 - 1 := by norm_num
    rw [h1, Nat.testBit_two_pow_sub_one]
  rw [hones, Nat.testBit_two_pow]
  by_cases h : j = k
  · subst h; simp [hj]
  · have h' : ¬ k = j := fun hc => h hc.symm
    by_cases h2 : k < 32
    · simp [h, h', h2]
    · simp [h, h', h2]

theorem and_complement32_testBit (n j k : Nat) (hj : j < 32) (hk : k < 32) :
    (n &&& complement32 (1 <<< j)).testBit k = (n.testBit k && !(k = j : Bool)) := by
  rw [Nat.testBit_and, complement32_spec j k hj]
  simp [hk]

/-- The claim theorem for C10, stated below, uses this description of
`getBit` in terms of `Nat.testBit` of the two words. -/
theorem getBit_eq_testBit (b : BitBoard) (j : Nat) (hj : j < 64) :
    b.getBit j = (if j < 32 then b.low.testBit j else b.high.testBit (j - 32)) := by
  rw [BitBoard.getBit, if_neg (by omega)]
  by_cases h : j < 32
  · simp only [if_pos h]
    rcases ht : b.low.testBit j with _ | _
    · have := (not_iff_not.mpr (and_pow_ne_zero_iff b.low j)).mpr (by simp [ht])
      simpa using this
    · have := (and_pow_ne_zero_iff b.low j).mpr ht
      simpa using this
  · simp only [if_neg h]
    rcases ht : b.high.testBit (j - 32) with _ | _
    · have := (not_iff_not.mpr (and_pow_ne_zero_iff b.high (j - 32))).mpr (by simp [ht])
      simpa using this
    · have := (and_pow_ne_zero_iff b.high (j - 32)).mpr ht
      simpa using this

/-- Claim C10: for every `BitBoard` (words being 32-bit values as the JS
class maintains): if the board is empty then `getLSB` and `popLSB` return
the sentinel `-1` and `popLSB` leaves the board unchanged; if it is
non-empty then `getLSB` returns the index `idx < 64` of the lowest set bit
(`getBit idx` holds and every lower bit is clear), and `popLSB` returns
that index together with a board in which exactly bit `idx` was cleared
(every other `getBit` unchanged); consequently every bit up to and
including `idx` is clear afterwards (repeated pops enumerate squares in
increasing order) and the summed word value strictly decreases (repeated
pops terminate). -/
theorem claim_C10_getLSB_popLSB (b : BitBoard)
    (hlow : b.low < word32) (hhigh : b.high < word32) :
    (b.isEmpty = true → b.getLSB = -1 ∧ b.popLSB = (-1, b)) ∧
    (b.isEmpty = false → ∃ idx : Nat, idx < 64 ∧
      b.getLSB = (idx : Int) ∧
      b.getBit idx = true ∧
      (∀ j, j < idx → b.getBit j = false) ∧
      b.popLSB.1 = (idx : Int) ∧
      (∀ j, b.popLSB.2.getBit j = (b.getBit j && !(j = idx : Bool))) ∧
      (∀ j, j ≤ idx → b.popLSB.2.getBit j = false) ∧
      b.popLSB.2.low + b.popLSB.2.high < b.low + b.high) := by
  constructor
  · intro hemp
    have hl : b.low = 0 := by
      have := hemp; simp [BitBoard.isEmpty] at this; exact this.1
    have hh : b.high = 0 := by
      have := hemp; simp [BitBoard.isEmpty] at this; exact this.2
    have hlsb : b.getLSB = -1 := by rw [BitBoard.getLSB]; simp [hl, hh]
    refine ⟨hlsb, ?_⟩
    rw [BitBoard.popLSB]
    simp [hlsb]
  · intro hne
    have hne' : ¬ (b.low = 0 ∧ b.high = 0) := by
      intro hcon; simp [BitBoard.isEmpty, hcon.1, hcon.2] at hne
    -- the LSB index as computed by the source scan
    by_cases hl : b.low = 0
    case pos =>
      have hh : b.high ≠ 0 := fun hc => hne' ⟨hl, hc⟩
      set idx := lsbScan b.high 32 with hidx
      have hsplit : idx = 32 + lsbScan b.high 0 := lsbScan_base b.high 32
      have hbit := lsbScan_testBit b.high hh
      have hlt32 : lsbScan b.high 0 < 32 :=
        lsbScan_lt_of_lt b.high 32 hh (by simpa [word32] using hhigh)
      have hidxlt : idx < 64 := by omega
      have hglsb : b.getLSB = (idx : Int) := by
        rw [BitBoard.getLSB]; simp [hl, hh]
      have hidx32 : ¬ idx < 32 := by omega
      have hgb : b.getBit idx = true := by
        rw [getBit_eq_testBit b idx hidxlt, if_neg hidx32]
        have : idx - 32 = lsbScan b.high 0 := by omega
        rw [this]; exact hbit.1
      have hlow' : ∀ j, j < idx → b.getBit j = false := by
        intro j hj
        by_cases hj64 : j < 64
        · rw [getBit_eq_testBit b j hj64]
          by_cases hj32 : j < 32
          · simp [hj32, hl]
          · rw [if_neg hj32]
            exact hbit.2 (j - 32) (by omega)
        · simp [BitBoard.getBit, if_pos (by omega : 64 ≤ j)]
      have hpop : b.popLSB = ((idx : Int), b.clearBit idx) := by
        rw [BitBoard.popLSB]
        simp only [hglsb]
        rw [if_pos (by omega : ((idx : Int)) ≠ -1)]
        simp
      have hclear : ∀ j, (b.clearBit idx).getBit j = (b.getBit j && !(j = idx : Bool)) := by
        intro j
        rw [BitBoard.clearBit, if_neg hidx32]
        by_cases hj64 : j < 64
        · rw [getBit_eq_testBit _ j hj64, getBit_eq_testBit b j hj64]
          by_cases hj32 : j < 32
          · have : ¬ j = idx := by omega
            simp [hj32, this]
          · simp only [if_neg hj32]
            have h1 : (b.high &&& complement32 (1 <<< (idx - 32))).testBit (j - 32)
                = (b.high.testBit (j - 32) && !((j - 32) = (idx - 32) : Bool)) :=
              and_complement32_testBit b.high (idx - 32) (j - 32) (by omega) (by omega)
            rw [h1]
            have : ((j - 32) = (idx - 32) : Bool) = (j = idx : Bool) := by
              rcases Nat.decEq j idx with h | h
              · simp [h]; omega
              · simp [h]
            rw [this]
        · have h64 : 64 ≤ j := by omega
          simp [BitBoard.getBit, if_pos h64]
      have hdec : (b.clearBit idx).low + (b.clearBit idx).high < b.low + b.high := by
        rw [BitBoard.clearBit, if_neg hidx32]
        simp only
        have hle : b.high &&& complement32 (1 <<< (idx - 32)) ≤ b.high := Nat.and_le_left
        have hneq : b.high &&& complement32 (1 <<< (idx - 32)) ≠ b.high := by
          intro hcon
          have h1 := and_complement32_testBit b.high (idx - 32) (idx - 32) (by omega) (by omega)
          rw [hcon] at h1
          have h2 : b.high.testBit (idx - 32) = true := by
            have := hgb
            rw [getBit_eq_testBit b idx hidxlt, if_neg hidx32] at this
            exact this
          simp [h2] at h1
        omega
      refine ⟨idx, hidxlt, hglsb, hgb, hlow', ?_, ?_, ?_, ?_⟩
      · rw [hpop]
      · intro j; rw [hpop]; exact hclear j
      · intro j hj
        rw [hpop]
        rcases Nat.lt_or_ge j idx with hlt | hge
        · rw [hclear j, hlow' j hlt]; simp
        · have : j = idx := by omega
          rw [hclear j, this]; simp
      · rw [hpop]; exact hdec
    case neg =>
      set idx := lsbScan b.low 0 with hidx
      have hbit := lsbScan_testBit b.low hl
      have hlt32 : idx < 32 := lsbScan_lt_of_lt b.low 32 hl (by simpa [word32] using hlow)
      have hidxlt : idx < 64 := by omega
      have hglsb : b.getLSB = (idx : Int) := by
        rw [BitBoard.getLSB]; simp [hl]
      have hgb : b.getBit idx = true := by
        rw [getBit_eq_testBit b idx hidxlt, if_pos hlt32]
        exact hbit.1
      have hlow' : ∀ j, j < idx → b.getBit j = false := by
        intro j hj
        rw [getBit_eq_testBit b j (by omega), if_pos (by omega)]
        exact hbit.2 j hj
      have hpop : b.popLSB = ((idx : Int), b.clearBit idx) := by
        rw [BitBoard.popLSB]
        simp only [hglsb]
        rw [if_pos (by omega : ((idx : Int)) ≠ -1)]
        simp
      have hclear : ∀ j, (b.clearBit idx).getBit j = (b.getBit j && !(j = idx : Bool)) := by
        intro j
        rw [BitBoard.clearBit, if_pos hlt32]
        by_cases hj64 : j < 64
        · rw [getBit_eq_testBit _ j hj64, getBit_eq_testBit b j hj64]
          by_cases hj32 : j < 32
          · simp only [if_pos hj32]
            exact and_complement32_testBit b.low idx j hlt32 hj32
          · have : ¬ j = idx := by omega
            simp [hj32, this]
        · have h64 : 64 ≤ j := by omega
          simp [BitBoard.getBit, if_pos h64]
      have hdec : (b.clearBit idx).low + (b.clearBit idx).high < b.low + b.high := by
        rw [BitBoard.clearBit, if_pos hlt32]
        simp only
        have hle : b.low &&& complement32 (1 <<< idx) ≤ b.low := Nat.and_le_left
        have hneq : b.low &&& complement32 (1 <<< idx) ≠ b.low := by
          intro hcon
          have h1 := and_complement32_testBit b.low idx idx hlt32 hlt32
          rw [hcon] at h1
          have h2 : b.low.testBit idx = true := by
            have := hgb
            rw [getBit_eq_testBit b idx hidxlt, if_pos hlt32] at this
            exact this
          simp [h2] at h1
        omega
      refine ⟨idx, hidxlt, hglsb, hgb, hlow', ?_, ?_, ?_, ?_⟩
      · rw [hpop]
      · intro j; rw [hpop]; exact hclear j
      · intro j hj
        rw [hpop]
        rcases Nat.lt_or_ge j idx with hlt | hge
        · rw [hclear j, hlow' j hlt]; simp
        · have : j = idx := by omega
          rw [hclear j, this]; simp
      · rw [hpop]; exact hdec

/-- Witness for C10 at the concrete board with bits 2, 4 and 33 set. -/
theorem claim_C10_witness :
    (BitBoard.mk 20 2).low < word32 ∧ (BitBoard.mk 20 2).high < word32 ∧
    ((BitBoard.mk 20 2).isEmpty = true →
        (BitBoard.mk 20 2).getLSB = -1 ∧ (BitBoard.mk 20 2).popLSB = (-1, BitBoard.mk 20 2)) ∧
    ((BitBoard.mk 20 2).isEmpty = false → ∃ idx : Nat, idx < 64 ∧
      (BitBoard.mk 20 2).getLSB = (idx : Int) ∧
      (BitBoard.mk 20 2).getBit idx = true ∧
      (∀ j, j < idx → (BitBoard.mk 20 2).getBit j = false) ∧
      (BitBoard.mk 20 2).popLSB.1 = (idx : Int) ∧
      (∀ j, (BitBoard.mk 20 2).popLSB.2.getBit j =
        ((BitBoard.mk 20 2).getBit j && !(j = idx : Bool))) ∧
      (∀ j, j ≤ idx → (BitBoard.mk 20 2).popLSB.2.getBit j = false) ∧
      (BitBoard.mk 20 2).popLSB.2.low + (BitBoard.mk 20 2).popLSB.2.high <
        (BitBoard.mk 20 2).low + (BitBoard.mk 20 2).high) :=
  ⟨by decide, by decide,
    (claim_C10_getLSB_popLSB (BitBoard.mk 20 2) (by decide) (by decide)).1,
    (claim_C10_getLSB_popLSB (BitBoard.mk 20 2) (by decide) (by decide)).2⟩

/-! ## Game constants from `src/constants/gameConstants.js` -/

/-! The `PIECES` piece-code table. -/
namespace PIECES

def KING : Nat := 0
def QUEEN : Nat := 1
def ROOK : Nat := 2
def BISHOP : Nat := 3
def KNIGHT : Nat := 4
def PAWN : Nat := 5
def NONE : Nat := 6

end PIECES

/-! The `CASTLING` bitmask table. -/
namespace CASTLING

def WHITE_KINGSIDE : Nat := 1
def WHITE_QUEENSIDE : Nat := 2
def BLACK_KINGSIDE : Nat := 4
def BLACK_QUEENSIDE : Nat := 8
def ALL : Nat := 15

end CASTLING

/-- `Player.PIECE_VALUES` from `src/players/Player.js` (also duplicated as
`PIECE_VALUES` in `gameConstants.js`), indexed by piece code. -/
def PIECE_VALUES (piece : Nat) : Nat :=
  if piece = PIECES.PAWN then 100
  else if piece = PIECES.KNIGHT then 320
  else if piece = PIECES.BISHOP then 330
  else if piece = PIECES.ROOK then 500
  else if piece = PIECES.QUEEN then 900
  else if piece = PIECES.KING then 0
  else 0

/-- Colors: the source uses the strings `"white"` / `"black"`. -/
inductive Color
  | white
  | black
deriving DecidableEq, Repr

/-- `colorToIndex` from `src/utils/bitboard.js` (`WHITE_IDX = 0`, `BLACK_IDX = 1`). -/
def colorToIndex : Color → Nat
  | Color.white => 0
  | Color.black => 1

/-- The ubiquitous `color === "white" ? "black" : "white"` ternary. -/
def Color.opp : Color → Color
  | Color.white => Color.black
  | Color.black => Color.white


/-- The 768 piece-square Zobrist seeds `ZOBRIST_SEEDS.pieces[color][pieceType][square]`
from `gameConstants.js`, as 64-bit natural numbers. -/
def zobristSeedsPieces : List (List (List Nat)) := [
 [
  [
   0xed82756a732172c4, 0x954fe991fb355c20, 0x3e55b9c2c3901c10, 0xc9a01864c36be754,
   0xd2dc05a27f47bbb6, 0x0acbcd1a69f44125, 0xea846d3c1b8e00d7, 0x67bed473823242c6,
   0x5c61222de2f2c6e0, 0x1d906da4bf593ad1, 0xacf8ed6520ca605a, 0x1c15213d00943cec,
   0x5e9f74fbbfbced01, 0x6659e2305b1a7913, 0x731870f41c9a7d46, 0x3046e483966451a6,
   0x0017234cd63756b5, 0x5100354a9eb43ced, 0xfdbd885aad828927, 0xae745ed118c8d9a3,
   0xea34b63c09b458d8, 0xd8156646e081b21f, 0x286f42e4b9117cbc, 0x218b1269d012288d,
   0x6134fe5e8a57d1c6, 0x3dd93fbfa14e536a, 0x79bc0179be4f934e, 0x15fdfb1e83b28119,
   0x0684575434494f01, 0xc2a817f610c25eca, 0x2ec91834bd41231c, 0xa88c84b451209923,
   0x7913bf0e0d37e1b2, 0xe60aa7baa9dee031, 0xf08bc9c1bf4031f5, 0x066e84d8aa5f4919,
   0x02d83b20f7b3f45e, 0x3a2526d8cc9aa98f, 0x2e11423b51f81f9b, 0x161e766bccfdc54a,
   0xa5077f6ec7b48e77, 0x83b78d50b3768221, 0xa20d3880f0cdee7b, 0x062d14f0ce55869a,
   0x16e764698ab06a1e, 0x7e9fadc5757709f3, 0xd58541b4f9266025, 0xab96c8eec82744f2,
   0x537bb9937a06c53a, 0x4633a2e2bdd7e1d5, 0x14cd764e928f5e43, 0xaea6825a6144ce95,
   0x88ef06d2e7fe860c, 0x402473f64cbfc5bd, 0x8eaa2a63a272f3c3, 0xc9545b0cff70635f,
   0x8c9e0b318caa8f61, 0x16314a74acc1d2aa, 0x84bc419f33b91988, 0xf7cfb1aec49c94dd,
   0x51d4dee49ee39ba0, 0xf5d7e2ee037c4fb3, 0xdfa0c264b15e348c, 0x03a3ff6b07fd19f2
  ],
  [
   0x315adac10e02b26b, 0xe7233ed9360469d3, 0x4d12e54a4a0c024d, 0x320a666711391046,
   0xab309d55de0f17f0, 0xfe166aaab33e26ab, 0xa881bc468f4abb2c, 0x025ec7ed7fe6ccf6,
   0x00a2e6d850c6ac37, 0x33bf6ae1c9a36a95, 0xafac4c8adb778a37, 0x5375688cd68ae215,
   0xf70e471ed63a2dc5, 0xfc64b714a61129c3, 0x8ee0e2359da9bdbf, 0xfab9f22fd7ecf322,
   0xf8480a5185aa3086, 0xb7f14580d79f7b20, 0x17199046b0af3500, 0x0d8c71ffb354ba7f,
   0xf687051565d212f5, 0x42f9e88dacedb950, 0x65cd7aaab591afc4, 0xf0a6c60a6f161cb,
   0xedd091efd077e22b, 0xd5ca4a41b0fe9061, 0xc8d54e774dba9bfa, 0xbeda52382763ba47,
   0x206b8c25acbfebcb, 0x51562e99205475e3, 0x7158c0d76f10da8f, 0x368608f800ec405e,
   0x80aaf08a02664a45, 0xc992606c6b7e0ca2, 0x3d2b38e9683a6364, 0x01d79a2375aad9ee,
   0x1363ee1a52b1d00b, 0x2f91d3e7f32243bf, 0xc9b0f248adef2cdb, 0xfab3007a3bae5fea,
   0x3a2fc61057d96cc8, 0xe952f13cbdc6a654, 0x2a022323ed3d6334, 0x53c6dc3a7edb378b,
   0x74903be9c9e22a4a, 0x0539449817a2a936, 0x03f65b03bb93ddf2, 0x9dee4baf3adb42f3,
   0x814f6c4a09a51fa2, 0x07d598741981c9ff, 0x98e8ada5b7603f70, 0x117adf8a2c8800a3,
   0x1e7a4ebb37e36dae, 0x72e60a82dc8fc10b, 0x16745e642aac9ac4, 0xa712e71480480034,
   0xaf397b52f92cec78, 0x5ba7ae09fe6f6764, 0x9898df944d18d63e, 0x498bc555f5fedc45,
   0x77ae7fddbfba26f2, 0xd4132911bb8e0c01, 0x696419bec9d6d958, 0x94bfd7f577a30f23
  ],
  [
   0x798bb15d89be2a43, 0xcaba22940a3d3c43, 0xbf9118ba373fd208, 0x6acec28126014d0c,
   0x7b60d3ebff80e82d, 0x3c6d858faa333ba3, 0x8f0be7507c92a16c, 0xe706757f8f49b8df,
   0x11e1afc5f7d276a8, 0x36f1df3f00fe149a, 0x63e41c74338156d3, 0x1f94649350a0f596,
   0xcf6f55944a03af56, 0xe87d3a341bc09173, 0x9b4e478aadb2fc52, 0x97dbabb93ea09ddb,
   0xe464f7e2f740217a, 0x8083f2396d5d4229, 0x7d5464d1cd3ea206, 0xe93e6cf4a5f7301b,
   0x10b1c2c4af2795b0, 0x2bd1030d68335cb1, 0xe58e29959250b921, 0xb593e5658df303b1,
   0x9f56ef1d8d568a86, 0x911d35d6ecc18c58, 0x54525306929823ed, 0x0e5c5ca3fa5c8469,
   0x9ec5e3823f5cbab8, 0x5983b741bbea63bb, 0xeedc4b825840a544, 0x45a99a14cd8aa66c,
   0x6b0c8406b2f10917, 0x45a29c13af1ffee9, 0x235d9eddbc8d1563, 0xfaa564673473ec75,
   0x990816c75f8a7b90, 0xdc202888f5aa49b1, 0x536e1cc7064e343b, 0x948491bc4a2f657c,
   0x31dfbf4bae4659db, 0x6a8e5cf9d16d72f5, 0xdf323eb9f7cc736e, 0xc87f360dc74a6681,
   0xd7c355cc95d25b47, 0x33c15d46c2da1f29, 0x3dfffa8c146bf1e2, 0x69063aaf009fe8f3,
   0xbee8c0491f43b078, 0xe8603780958990bd, 0x8a4b2c9b311b63ea, 0x6973e017da1e21b3,
   0xf7a1425cc529f82e, 0x093fd807a98ef6ef, 0xb77f0ae4949a1c76, 0xb0b186c8f8d771c0,
   0x00925f6960d20b77, 0x88c8b2f45aaa46dd, 0xa0700fc56a3e957b, 0x1780fc064cfec918,
   0xa8025e42feaa139e, 0x7044aac282d97467, 0x20abf459bb57974d, 0xd1f8e8353e32b416
  ],
  [
   0x63795d8ea0d418dd, 0x5d419b60ea1577ef, 0x05789b1a5e6960d5, 0x068dbab55793f978,
   0x9fa681166556f110, 0xfca7493bde663d85, 0xfbdb27d63bfc47f4, 0x7a6cdd5a2d200bc4,
   0xb7397d298a686cf9, 0xcf32a572967b587f, 0x87f95c3ed0cb7051, 0x6829669bd9a7e478,
   0x3d1e626f178bafc4, 0xbc1cefc8858ba379, 0xae63c4c7bc3ea8c5, 0x03016bdcef55f5eb,
   0x06f3756675b7b783, 0x9e2d436237413762, 0xa8331fe2bbb1e5fa, 0xea4294293d950f4b,
   0x5f9ef77d2d4842e6, 0xf1ab0bffd32e5ed9, 0xfa774ba46e9335bd, 0x5ff8e5cf518cbf69,
   0x5f5fb6ca94718b90, 0xa2b10bfb56cbd660, 0x5ca676faba649060, 0xff0db77252e80735,
   0x1a99941cfda29f43, 0xfdd9b62e37d379ee, 0xc7a792bc1f13571d, 0x32b922293fa2f09b,
   0x6c2fd51286198899, 0x3c94c834a1b4655c, 0x9e870852dd1b4be2, 0x50252f69cb11d23e,
   0xb3cdf5e8c3c703d6, 0xfe4fd8a783e136ab, 0xc3bb4c87180540b0, 0xeee3fe1b9253c52c,
   0x133b2f2800cc223a, 0x8c059dee7382ee55, 0xe15101e1dd02d4f5, 0x44370afdbe699d5c,
   0x3ac2236a9121fd43, 0xef7f2d380fd81639, 0x7b4d52e324b56e67, 0xf82c3e2365e74fd7,
   0x8ea8f570ecc7e7c2, 0x2bea11a1b4de96fa, 0xa577cd3fb2a462c4, 0x6827e483d5579790,
   0x876feb0aea0bf334, 0xc7c0650fe544d9d9, 0xef69269631fcba00, 0xd85dc306ee3c4d28,
   0x6106e9bf91baf210, 0x6a8beee52fc7bc4a, 0x423f4f6e958a9a78, 0x2fbc7e743e7df848,
   0x198c1462239eb634, 0x388627ef4976f385, 0x5011c1fafec39028, 0xafb6766f10c72fa9
  ],
  [
   0x90df04acb8b354d4, 0xf8f52b0f8f1e8187, 0x696a0807884b8b5e, 0x858e8f70d0ba6027,
   0x5918a2c4c4a1cd06, 0xc5383c4b828257ab, 0xf2960f43ba9eb7f5, 0x7a1e14cbe714c56d,
   0x7b754d208c4f1af3, 0x957b1843358363c8, 0x18dfc09fa826a6b5, 0xd8bce62c742ff6dc,
   0xb403aa433b921b72, 0xdc8e472c654d1f39, 0x680aa89645cd5c8a, 0x79de6eca0ab5309b,
   0xba5cfe3a5f7c8a7f, 0x0a23bc294c5343ee, 0xc8be40e4c88d796a, 0xd074b29695a3a35d,
   0x7e4b7774177ce136, 0x05b05bae8574fec4, 0xa89bd4a85358a386, 0xcfdc052c295b6bd7,
   0xa16bc830fb0e4cbc, 0xe8ff00c2c390baba, 0xa04084622e3ff355, 0x5ac8e84a3c365e25,
   0xfb8e3bcc64cd9536, 0xcf4f837d18baf01b, 0x2f2592cd5ef9d337, 0x06978276ac8a010b,
   0x6af6911df4060500, 0xafb38aa8f41f9495, 0x009325657a89bef8, 0xa39f85e003721454,
   0x438c28c32193e097, 0x5f671af647b957a6, 0x89563e7af47030c5, 0xfa5bfd3bb8785d3f,
   0xd7540f98c90386ee, 0x866cf9453110fd24, 0x0074204cac14a73f, 0x539fcaa715f5ee9c,
   0xfe2d5a80a7a69f73, 0x2c577c6f7a2a2238, 0x7d3a5476a900c11b, 0xe68d4cc2a2088ff4,
   0xac0ad7e4762701f8, 0x398f22307e1b1569, 0x665fe18cb11fc968, 0xb525651146044cce,
   0x57ac461eb3499e57, 0x12775379987aa4ac, 0x1a0713e5b3ca6f02, 0xb2abfb9aca42e9a9,
   0xf58eeddf2b3bd0a3, 0xc68a947b1d38be41, 0xce2c522ddded5400, 0x98ae86dd8d8ac06c,
   0x087f6d2e0161e4fb, 0xa1cfbe4aad31a198, 0x712d402e317b99de, 0x1648de5351c428c0
  ],
  [
   0x6fad11cb321c9621, 0x5732479aa6f1b268, 0xe8b3a13ed945f3ef, 0x49714b484de60395,
   0x647b4eb71db33c02, 0x447f301ff5f7a9cf, 0x726824aed0ce7a93, 0x4b57e549a9734ff3,
   0x1d6e45da3bb1c468, 0xe935fb9d629490d0, 0x2733e508583f8e42, 0x39c9df63478bf9f1,
   0x4ff4d48afb426ca7, 0x1efe98a59fd9429d, 0x18464f698de7207d, 0xf51465695b9cf13a,
   0x95f7e580424cf840, 0x8e9eeef4261fa430, 0x3e3e3df30bda871f, 0xc4097f729e91a204,
   0x73782f76c2efd62d, 0x16a97bc108eadc59, 0xef06a0340ae3970d, 0xf60343280a1569ee,
   0xf3059350d87d2c60, 0x9d459181e4e5c9d2, 0x718cd7c177d93956, 0x5ca76b467fbb081e,
   0x238fef5b5f84737d, 0xc5b93b5114ec9bb4, 0x229c95aa959a0d83, 0x536cb47705c3ed37,
   0x191f020837e822e8, 0x70ef9a77f5e19c89, 0x86a71c061d907a74, 0x75e574d3d2ebc95c,
   0x426dffcb3187b4c1, 0xf6706705752d49ff, 0x631a398907839cc9, 0xb780cdc592cd082b,
   0x0c069ccd328f844e, 0xbb4b676c2da03eef, 0x321528279ea11823, 0x38e3b7cd50790215,
   0x03c6f4b1c0ab88c0, 0x034c3f63f9ad00e5, 0xd466c825a8b1c384, 0xf07342de37d51b00,
   0x2250d1085cca73ae, 0x083f70ee64c6bd0e, 0x25e13ee4397ab667, 0x2fee41f4d4629236,
   0x5a865015f220597b, 0x7dee0dd1cd630ac2, 0x87196fcb7579f05a, 0xe8c3e540080caf5b,
   0x439e1aa25f53c32c, 0x9f1fffb248a29143, 0x0b9db2211615bf93, 0xc424aeca9c84c507,
   0xdd7212151dfa13a3, 0x6dc30f191d374e16, 0x00cee396a455670a, 0x0da3d74423cce6cb
  ]
 ],
 [
  [
   0x9336795d97352932, 0xc611c45b39b24c21, 0x3985b36a0d12bbf7, 0x69e2b6852e92fb20,
   0x41486a924a3b64e2, 0xf5c0e693e3fdb9be, 0x1efd91395b8e2ff8, 0x8383fce9cb5a6046,
   0x837566fe2bb213a0, 0x76d209f1be10ffe8, 0x2dac53aee6a830ee, 0x066881656ab674aa,
   0xf33054dee896f352, 0xbe31f00f98887546, 0x01d892cbb93a9989, 0xd5ae2a4ac65ccbc4,
   0xa5df0f40f146d484, 0xb8fc49a9e99f3bcf, 0xde9ddffadcd8a8ee, 0xd79bd1e2a2f5b6bc,
   0x5eee013bcf51f3a5, 0x8c37e52aa8555441, 0x4b4bdbc8015a99dd, 0x8f67831b64bf7666,
   0xdeff39540b309ec1, 0x22a2ec4e63609e6b, 0x5e15d615f563572c, 0xf61a7849ed843fb7,
   0x0f7a8e0783acbb7a, 0x94c41955116b1bca, 0x82400cde72db6e76, 0xf93c11b2303ac074,
   0x06b2fbf0d5639e2f, 0x4ea5480b8cd9dbcd, 0x4c2156cc19122eec, 0xb4d3a7ba29089e24,
   0xe7f758c0b1837634, 0x39c0dddfb84b284d, 0x5f5dd40c02b4ae6a, 0xbdfe619e049232fe,
   0xde8ef52b5d6e2073, 0x406ab4dfc30f4db6, 0x090365a73db61599, 0xf823c790fbfe10af,
   0x647079f7a9de9a2c, 0x944537ed5232640d, 0x75cb3b8e1b2be67c, 0x3f821c958de1b94f,
   0x5100daa95d97197d, 0x0f9c874462074d1a, 0xbc789b6e4c01e4c2, 0x44d4a8377aaba06b,
   0x46cfff313d970d77, 0x2fdd526b3c1c5a8f, 0xe82fc5b1254a679c, 0x997c6ad0b49fcdc4,
   0xd62551fa1e66ae78, 0x143f05de2783a2d3, 0x8a6d4c04b089a5cc, 0x341edd88f95487e4,
   0xdbf4a7cfb14f00bf, 0x274ac34fde793f96, 0xa2e73527c8e3a71b, 0x328a147a7bc6a273
  ],
  [
   0x8e36d7e23e86d051, 0xe5d227f6ca016e79, 0x86dc33350186fe1e, 0xdcd0c0655b468f12,
   0xbe206f1a44207831, 0x8fb573974964a9b5, 0xbc56a474799b21ce, 0x2b819da4902e9028,
   0x4159861db9b87fdd, 0x648e6f28a11a9d93, 0x585787b9957485c1, 0x0e02b6ebcfb233c8,
   0xbd3ec30cb2b25e07, 0x6ba8c34210f0be32, 0xcfbed0f56f544610, 0xd20957b6e8f161c5,
   0x7cf7c41e8098875b, 0x8625be9cb9103e93, 0x7bf7f037ee2b2847, 0xb118ac7defc0370d,
   0x77329cc35699e88c, 0xabf8e78396f9a73d, 0xf4befdc8641464d7, 0x51fbe97f41ae6994,
   0x1bea70171ac701a8, 0x6dd088de108b40c4, 0xc002a47244936120, 0x4f979b9a4e7e5b54,
   0x70e019c66f82769d, 0x2a841d08d9347f5c, 0x6b15cdbaf441abeb, 0x01d2cdfb9caaf26f,
   0x5085a75d80077749, 0x94d432e450d1fa22, 0x89750d01dfa00724, 0x01015e5fe32e842d,
   0x23023d92e52663bb, 0xfdcc26556dbf75ad, 0x0550662b366bfd85, 0x58bab3bed59430fd,
   0xfae48defd6652418, 0x2c39ca3dd9009e21, 0x07dadcd806c3e4be, 0xab8d576738a071d8,
   0x1cb4788e73a4d81e, 0xfc31c3d48ac01580, 0x546c0b3a77a2e700, 0x89c7aaa14977739b,
   0xe8b286ad12a907c2, 0xd044e77939ca4458, 0x35231e3a55e58b80, 0x0bd62597a1975b47,
   0x62db0302c38cdc75, 0x0f8b6a7e467ac5da, 0x6b09379fb94c8bb2, 0x9eb6da32de3dd06d,
   0x117aec6b7e4cbb7d, 0x2767ea04d7337a25, 0x0efbf5171c21925c, 0xe8d07e8f22bc87f8,
   0x5dbc123c257f121c, 0x1748c7f58cf67de4, 0x98eb691fca29c488, 0x5fb7fa0929c1157e
  ],
  [
   0x3192b78c96434350, 0x8434127cf0abcb7f, 0xeb8ce97bfea57e42, 0x832293f34e6b4c9b,
   0x20ff1fe4ee654651, 0xb784ca23a50bb1bc, 0xb76b768b901a7018, 0x22f16c579a6fa6a6,
   0x2420a5a368820566, 0x10fa2b237b824c6c, 0x8daa9aa1d041a333, 0xaa7558f836ebe6db,
   0xe4a4abba984efa43, 0x33b6c41709a02925, 0x1916b0a140148608, 0x75f14918c6f68e53,
   0xe85a80906ed6d0e1, 0x4eee136c58c8588f, 0x30555d2d339f2066, 0x51bbc627f15a45ad,
   0x3e02586c857fe8fc, 0xf6f88cca7dffb2d3, 0x6e80de96980f8cf9, 0xabbaffad9c63bacd,
   0x63a05673cc09c7e0, 0xad7162f55b055c49, 0xb1514d435b14b645, 0x44b3163e12e321bb,
   0xf3b5c427836093d7, 0x6ecb033a88697d3c, 0xb0acf4a6fbe152d0, 0x1e542c6c2f23deea,
   0x18f1eeeb01672bf7, 0x968eeb61e00ade0e, 0xfd420f05e0d04a2f, 0x7f8d1adbda108959,
   0x08f1499993759a60, 0xa93a1b48587740ef, 0x91f00d73f7798038, 0x47927a0ef19fef53,
   0x83e927437af882d1, 0x8708a3ac5c074491, 0x6b9b3d6ebea8985b, 0xc0eda674868e4181,
   0x19b041a8b986f952, 0x4ccf91895abdd848, 0x177e3fc8ed134d13, 0xb97adf11bf3fc2a4,
   0x83e1713f26273e60, 0x6275fae73adf7333, 0x257c7977242e4ee2, 0x288f603777c7e245,
   0x64aa5de3e7ad4b2d, 0xe2769d175af70a38, 0x62a666237fa5ae37, 0x6a5a3010b05a2ea9,
   0xc45553cf55aff70f, 0x6f716a09ed974b78, 0xa17c817c2919da3c, 0xe18762580859a325,
   0x4257b55565a12202, 0xabb1488a80aaa31b, 0xcb43c191a05ffaeb, 0x47d491c2e21d9ac8
  ],
  [
   0x9cf9ebd6cdb065ba, 0x03019354173a3da6, 0x020f68f5a95107c4, 0xbe350a15d8a4d4ec,
   0xed245ccb0c2b359c, 0xe7ab62a6a2b816da, 0x689917e9bc6ed524, 0x6fd24ac788dc2688,
   0xedc145bd039a153b, 0x30798eb41b3f3975, 0x2edf5b29757570c2, 0xbab75a5652787980,
   0x0750a4cc511e6bad, 0xc24da5022c8ab69c, 0x14829ad2deb64de9, 0x8fcfeb682e7df56f,
   0xaa8bf3ee6de5978b, 0x762fc7079916f6db, 0xfa29e70640aa30ee, 0x76b2ef0e4295d332,
   0xa5492c2c20d68576, 0xe06f5329ed45ee4c, 0x30ebd78412eaebdc, 0xae0d43310f79e687,
   0x241dd10a6ead06d2, 0x7e61486ddf9c20ac, 0xedf70b61f569ad27, 0xc3327324a9f21273,
   0xaa358cd7b6aa8b8e, 0x6485aa395d5e6bb4, 0x56e52794fa9f7e97, 0x660aa83de848785b,
   0x435b0b2d79487415, 0xa0ecc419620556bd, 0x6d9db4506292c104, 0x5b8eedeb8375c1b9,
   0x2289a635e2dffef1, 0xfbf7c20aaa156e58, 0xf8a38dfc1ce2d1db, 0x279407b7d65732b0,
   0x31e8d5073e914f06, 0x940e693e338c6d7f, 0xa3081f984f1ed80b, 0x268fa4ef9b534a26,
   0xe65af6a522364da2, 0xb581a9ff7fb95360, 0xaf51c9adeb684809, 0x3ffd1042aa79ed5d,
   0xf6046329b012ea55, 0xf83ac4e433ecd069, 0xa31049949a01e76f, 0xa494fd83f4c76215,
   0x442630bf53153a06, 0xd8bd55388d4eb3a1, 0xb72f80edf673395d, 0x76288389750f2d58,
   0x18e71ac97d2c56b5, 0x4684bdc41ea90128, 0x20cc6e6ed6d6c551, 0x82a387c78ffe16fb,
   0x342901a94b40ab51, 0xce5f7e0e0e45f853, 0x34c51cf357582755, 0x70c76135c9e58c42
  ],
  [
   0x317be4fc09fceb7b, 0x799dbb942e7a168d, 0x8cfc991e2f8ba1a0, 0xb4104bc1c53ff581,
   0x870cb5d4c530c752, 0xa9d0750d8d9ba28d, 0x12d62b157006698a, 0x56833332318766a2,
   0xf47500ebc8c7189c, 0x1f92e9a1106c04a6, 0x6d86aa55a0225022, 0xa4b79143a14d0056,
   0xe5bb657f52c7f272, 0xcfb7b62455ec03a0, 0x5b3d9f83afbfb460, 0xe2c9aaab4b05bfd5,
   0xb4f9771297d105b3, 0x0cc92216b227ca5d, 0x1b7b973ef181ffb4, 0x893763e0d51830e3,
   0x7825675ef64580b1, 0x2a64ff6145a90e09, 0xbb3aebd9708571b3, 0x5b66dd68a0db2b4e,
   0x62ed18dd2d30135b, 0x1a21902a3ae04e03, 0x82b7d60ed6fd0f97, 0xca0e7f3cc38dfd1a,
   0x887bb22bdaf891ab, 0x97e3b9f8adc012b0, 0xfd6bd9ab62f28ff1, 0xda45199dfc7611d7,
   0xf25690f65a5076f7, 0x1ddd0f0912a1c2ff, 0xfe86e3cfdfefaf5f, 0xfb1e5b1ddd49f5f7,
   0x63313a47992cd885, 0xb3ce1a4f832f3384, 0x7aef1512a0963e82, 0x6908b7a29326afbd,
   0x687b58f1c8bf029d, 0xcc823af8d3bb1e60, 0xaf0febc4634d6a69, 0x582f708b7859546b,
   0x3d70a756cd344d65, 0xe23f1e4dbafeeaee, 0xb32579cc8fe2d0c4, 0x699c535cffadc020,
   0x1906a4db6b1fbbfa, 0xdc0768f1cf2dd696, 0x0fe75e357875d3ff, 0x712f5face11db3f9,
   0x49a353ab8b7bb5a3, 0xf33804d144b89ee6, 0x0f57a9fff95beea2, 0xcf8f3975810331a7,
   0x9054937dae75c0cf, 0x48bcdf7fc2967b79, 0x4464ef7699b97f0b, 0x0f4c50ced96ef5ac,
   0xc79383f7e1c54f02, 0xc0628a032882e5e9, 0xd5dc7663eaa74ebf, 0x844239959e66f673
  ],
  [
   0x2d9979ea23bcc2cf, 0xcb18d58117c27922, 0xe4884777b6dc2b71, 0xb2498bf753d84548,
   0x3b5f6b1a0d032823, 0x99585d52f4552dab, 0x7ec8926bb18c860f, 0x7c181b1550995c05,
   0x2d4f10bb472cc6d5, 0x2fd142372faeb3f7, 0x34f330bfdfc6fb12, 0xdff651d43370f0ef,
   0x1f3c8656c7cad742, 0x9eb0c35fa520dc1b, 0x662dc79312f4db65, 0xea670aa364990c6a,
   0x2d6ac484116db147, 0xaaf3d7a8d316ec25, 0x9c2a2286632aeec1, 0xe3bcba19947f6579,
   0x6a6d5ad0e421b107, 0x7e8c9d77dff3da6b, 0x5aeadbd1d78e9797, 0xf457c14e8d365a5f,
   0x923ef0bfd804e414, 0xad07c86e00a8b8b6, 0x65f1cb0669a8ec2a, 0x52ae7afdcfe6f66b,
   0x9633cbf2d404cd98, 0xd7d5695d4c6d35c5, 0x06fd4eb19c52ba14, 0x26c657e3d160388c,
   0x68e15319656919d4, 0xaa507cf086d64064, 0x64cfd5b2f9b4771a, 0x1c13130a545977b2,
   0x20a5947bf8cb0a7a, 0x91657738c532d59a, 0x587344b8498230f2, 0xb2bad907df884cd6,
   0xfbb723eda44278b5, 0x949a364bc7a578fc, 0xa88128882653e721, 0xb9dcbb73c74125a0,
   0x5a7e5c435b122662, 0x353f04b67ec9d60a, 0xc6661ab1b218ecc1, 0xcc335c4cd60d4e14,
   0xfbfe92f2614dc3f8, 0x585cdba6280b2ee1, 0xc3f1c1058f3d4bd5, 0x94c6167a6c5f92e8,
   0xb941c9064bf3df32, 0xc8817ccb3481d8ab, 0x2805ed0526e9fee5, 0x4954afb3d6a66bc4,
   0xc3ed134f3b3a7406, 0x24ef5194a7097759, 0x92e8a981e1bebc31, 0xe6641167ae40556d,
   0x64cf24f05e41b331, 0x8de3b67fac52957a, 0xa617ed116e95b78e, 0xcf85f0439cffea11
  ]
 ]
]

/-- The 16 castling-rights Zobrist seeds `ZOBRIST_SEEDS.castling[mask]`. -/
def zobristSeedsCastling : List Nat := [
 0xe19a0ed4f4476f3a, 0xa252a9cdb92d9d99, 0x684b23d8894c5a7b, 0x2bedf89bf65e9d64,
 0x6c0aad20b88c1363, 0x6a161ee19f9f9ac8, 0xe74d6ee5c35d80a1, 0x350f8913255f0aac,
 0xd534a2fe19d051ee, 0x6aeb24fa5370e867, 0x7c29b9a4477ffc05, 0xa3492d6a210ace23,
 0x28c2eeb3a189765f, 0xc2e9bc1067092b4d, 0xb624f2cf794607fb, 0xe0ed65a3a68c6ec5
]

/-- The two side-to-move Zobrist seeds `ZOBRIST_SEEDS.sides`. -/
def zobristSeedsSides : List Nat := [
 0x575bae22c55bf622, 0x546dd47aeec56881
]

/-- The 17 en-passant Zobrist seeds `ZOBRIST_SEEDS.en_passant` (index 16 means none). -/
def zobristSeedsEnPassant : List Nat := [
 0x5f79d7c1a69e20af, 0xea17b487b0622cd7, 0xf097838978c9ca18, 0x178ab368cb094b56,
 0x83ea01b57764b1cd, 0xfde0212b2f3f8468, 0x2a1ee57ade12e31c, 0x523d09a47eebaeef,
 0xbf128771a60dcc75, 0xfe8e5325825fd46e, 0x7999663a1c5ba6b3, 0xa0390c4f15c4a633,
 0xcc83c7d9a0cf1e25, 0x52264c7152dac05b, 0x6f80c4c36bc521f3, 0xd33bb50387daeaf6,
 0xbcaddf44aa46971d
]

/-! ## Board state and `make`/`unmake` from `src/utils/chessLogic.js` -/

/-- `squareToIndex` from `src/utils/bitboard.js`: algebraic square name to
index (`rank*8 + file`); non-2-character input yields `-1`. -/
def squareToIndex (square : String) : Int :=
  match square.data with
  | [f, r] => (((r.toNat - 49) * 8 + (f.toNat - 97) : Nat) : Int)
  | _ => -1

/-- `new BitBoard()`. -/
def emptyBB : BitBoard := ⟨0, 0⟩

/-- `getPieceColor` from `src/utils/bitboard.js`. -/
def getPieceColor (bbSide : List BitBoard) (square : Int) : Option Color :=
  if square < 0 ∨ 64 ≤ square then none
  else if (bbSide.getD 0 emptyBB).getBit square.toNat then some Color.white
  else if (bbSide.getD 1 emptyBB).getBit square.toNat then some Color.black
  else none

/-- The `GameState` class.  The `next_move` field of the source is always
`null` and never read, so it is not represented. -/
structure GameState where
  active_color : Color
  castling : Nat
  half_move_clock : Nat
  en_passant_sq : Int
  full_move_count : Nat
  zobrist_key : Nat
deriving DecidableEq, Repr

/-- The per-move undo record (`moveInfo` in `Board.makeMove`).  `fromSq` and
`toSq` are the record's `from`/`to` (renamed: `from` is reserved in Lean). -/
structure MoveInfo where
  fromSq : Nat
  toSq : Nat
  movingPiece : Nat
  capturedPiece : Nat
  enPassantCapture : Option Nat
  castlingRook : Option (Nat × Nat)
  promotionPiece : Option Nat
  oldEnPassantSq : Int
  oldCastling : Nat
deriving DecidableEq, Repr

/-- The `Board` class; `historyStates`/`historyMoves` are the two stacks of
the `History` object. -/
structure Board where
  bbPieces : List (List BitBoard)
  bbSide : List BitBoard
  pieceList : List Nat
  gameState : GameState
  historyStates : List GameState
  historyMoves : List MoveInfo
deriving DecidableEq, Repr

/-- `board.bbPieces[colorIdx][piece]`. -/
def Board.piecesBB (b : Board) (colorIdx piece : Nat) : BitBoard :=
  (b.bbPieces.getD colorIdx []).getD piece emptyBB

/-- `board.bbSide[colorIdx]`. -/
def Board.sideBB (b : Board) (colorIdx : Nat) : BitBoard :=
  b.bbSide.getD colorIdx emptyBB

/-- In-place update of `board.bbPieces[colorIdx][piece]`. -/
def Board.modPiecesBB (b : Board) (colorIdx piece : Nat) (f : BitBoard → BitBoard) : Board :=
  { b with bbPieces :=
      b.bbPieces.set colorIdx ((b.bbPieces.getD colorIdx []).set piece (f (b.piecesBB colorIdx piece))) }

/-- In-place update of `board.bbSide[colorIdx]`. -/
def Board.modSideBB (b : Board) (colorIdx : Nat) (f : BitBoard → BitBoard) : Board :=
  { b with bbSide := b.bbSide.set colorIdx (f (b.sideBB colorIdx)) }

/-- `board.pieceList[sq] = piece`. -/
def Board.setPieceAt (b : Board) (sq piece : Nat) : Board :=
  { b with pieceList := b.pieceList.set sq piece }

/-- `board.pieceList[sq]`. -/
def Board.pieceAt (b : Board) (sq : Nat) : Nat := b.pieceList.getD sq PIECES.NONE

/-- `gameState.zobrist_key = z`. -/
def Board.setZobrist (b : Board) (z : Nat) : Board :=
  { b with gameState := { b.gameState with zobrist_key := z } }

/-- `gameState.zobrist_key ^= z`. -/
def Board.xorZobrist (b : Board) (z : Nat) : Board :=
  b.setZobrist (b.gameState.zobrist_key ^^^ z)

/-- `gameState.en_passant_sq = e`. -/
def Board.setEnPassant (b : Board) (e : Int) : Board :=
  { b with gameState := { b.gameState with en_passant_sq := e } }

/-- `gameState.castling = m`. -/
def Board.setCastlingRights (b : Board) (m : Nat) : Board :=
  { b with gameState := { b.gameState with castling := m } }

/-- `gameState.half_move_clock = n`. -/
def Board.setHalfMoveClock (b : Board) (n : Nat) : Board :=
  { b with gameState := { b.gameState with half_move_clock := n } }

/-- `gameState.full_move_count = n`. -/
def Board.setFullMoveCount (b : Board) (n : Nat) : Board :=
  { b with gameState := { b.gameState with full_move_count := n } }

/-- `gameState.active_color = c`. -/
def Board.setActiveColor (b : Board) (c : Color) : Board :=
  { b with gameState := { b.gameState with active_color := c } }

/-- `ZOBRIST_SEEDS.pieces[colorIdx][piece][square]`. -/
def zPieceSeed (colorIdx piece square : Nat) : Nat :=
  ((zobristSeedsPieces.getD colorIdx []).getD piece []).getD square 0

/-- `ZOBRIST_SEEDS.castling[mask]`. -/
def zCastlingSeed (mask : Nat) : Nat := zobristSeedsCastling.getD mask 0

/-- `ZOBRIST_SEEDS.sides[i]`. -/
def zSideSeed (i : Nat) : Nat := zobristSeedsSides.getD i 0

/-- `ZOBRIST_SEEDS.en_passant[i]`. -/
def zEnPassantSeed (i : Nat) : Nat := zobristSeedsEnPassant.getD i 0

/-- The `while (!bb.isEmpty()) { sq := bb.popLSB(); … }` drain pattern used
throughout the source.  Fuel 64 bounds the loop: each pop clears one of the
at most 64 set bits, so the fuel is never exhausted on 32-bit words. -/
def drainGo : Nat → BitBoard → List Nat
  | 0, _ => []
  | fuel + 1, bb =>
    if bb.isEmpty then []
    else
      let p := bb.popLSB
      p.1.toNat :: drainGo fuel p.2

/-- The list of square indices a drain loop visits, in pop order. -/
def drainSquares (bb : BitBoard) : List Nat := drainGo 64 bb

/-- `Board.zobristInit(gameState)`: the from-scratch Zobrist hash. -/
def zobristInit (b : Board) (gameState : GameState) : Nat :=
  let hash := (List.range 2).foldl (fun h color =>
    (List.range 6).foldl (fun h pieceType =>
      (drainSquares (b.piecesBB color pieceType)).foldl
        (fun h square => h ^^^ zPieceSeed color pieceType square) h) h) 0
  let hash := hash ^^^ zCastlingSeed gameState.castling
  let hash :=
    if gameState.active_color = Color.black then hash ^^^ zSideSeed 1
    else hash ^^^ zSideSeed 0
  if gameState.en_passant_sq ≠ -1 then
    let enPassantFile := gameState.en_passant_sq.toNat % 8
    let enPassantRank := gameState.en_passant_sq.toNat / 8
    if enPassantRank = 2 then hash ^^^ zEnPassantSeed enPassantFile
    else if enPassantRank = 5 then hash ^^^ zEnPassantSeed (8 + enPassantFile)
    else hash
  else hash ^^^ zEnPassantSeed 16

/-- `Board.getEnPassantZobristIndex(enPassantSq)`. -/
def getEnPassantZobristIndex (enPassantSq : Int) : Nat :=
  if enPassantSq = -1 then 16
  else
    let enPassantRank := enPassantSq.toNat / 8
    let enPassantFile := enPassantSq.toNat % 8
    if enPassantRank = 2 then enPassantFile
    else if enPassantRank = 5 then 8 + enPassantFile
    else 16

/-- JS `o || d` where `o` is a piece code or `null`: `null` and `0` are
falsy, every other piece code is returned as is. -/
def jsOrDefaultNat (o : Option Nat) (d : Nat) : Nat :=
  match o with
  | none => d
  | some v => if v = 0 then d else v

/-- JS truthiness of a piece code or `null`. -/
def jsTruthyNat (o : Option Nat) : Bool :=
  match o with
  | none => false
  | some v => v ≠ 0

/-- `Board.makeMove(fromSquare, toSquare, promotionPiece = null)`.

The translation follows the source statement by statement; the only
reordering is that the history entry, which the source pushes before
mutating and then patches in place (`moveInfo.enPassantCapture`,
`moveInfo.castlingRook`), is assembled from the computed values and
appended at the end — the resulting record and board are identical.
Invalid squares leave the board unchanged (the source returns `false`
without mutating). -/
def Board.makeMove (b0 : Board) (fromSquare toSquare : Nat) (promotionPiece : Option Nat) : Board :=
  if 64 ≤ fromSquare ∨ 64 ≤ toSquare then b0
  else
    let b := if b0.gameState.zobrist_key = 0 then
        b0.setZobrist (zobristInit b0 b0.gameState)
      else b0
    let movingPiece := b.pieceAt fromSquare
    let capturedPiece := b.pieceAt toSquare
    let movingColor := b.gameState.active_color
    let oppositeColor := movingColor.opp
    let previousEnPassantSq := b.gameState.en_passant_sq
    let previousCastling := b.gameState.castling
    let movingColorIdx := colorToIndex movingColor
    let oppositeColorIdx := colorToIndex oppositeColor
    let pushedState := b.gameState
    -- Zobrist: remove piece from source square; clear moving piece from source
    let b := b.xorZobrist (zPieceSeed movingColorIdx movingPiece fromSquare)
    let b := b.modPiecesBB movingColorIdx movingPiece (fun bb => bb.clearBit fromSquare)
    let b := b.modSideBB movingColorIdx (fun bb => bb.clearBit fromSquare)
    let b := b.setPieceAt fromSquare PIECES.NONE
    -- handle capture, half-move clock
    let b :=
      if capturedPiece ≠ PIECES.NONE then
        let b := b.xorZobrist (zPieceSeed oppositeColorIdx capturedPiece toSquare)
        let b := b.modPiecesBB oppositeColorIdx capturedPiece (fun bb => bb.clearBit toSquare)
        let b := b.modSideBB oppositeColorIdx (fun bb => bb.clearBit toSquare)
        b.setHalfMoveClock 0
      else
        b.setHalfMoveClock (b.gameState.half_move_clock + 1)
    -- pawn moves: returns the board, `moveInfo.enPassantCapture`, `finalPiece`
    let pawnStep : Board × Option Nat × Nat :=
      if movingPiece = PIECES.PAWN then
        let b := b.setHalfMoveClock 0
        let epRes : Board × Option Nat :=
          if previousEnPassantSq ≠ -1 then
            let fromRank := fromSquare / 8
            let fromFile := fromSquare % 8
            let toRank := toSquare / 8
            let toFile := toSquare % 8
            let isdiagonalMove :=
              ((fromFile : Int) - (toFile : Int)).natAbs = 1 ∧
              ((fromRank : Int) - (toRank : Int)).natAbs = 1
            if isdiagonalMove ∧ capturedPiece = PIECES.NONE then
              let captureSquare := fromRank * 8 + toFile
              if b.pieceAt captureSquare = PIECES.PAWN ∧
                  getPieceColor b.bbSide (captureSquare : Int) = some oppositeColor then
                let b := b.xorZobrist (zPieceSeed oppositeColorIdx PIECES.PAWN captureSquare)
                let b := b.modPiecesBB oppositeColorIdx PIECES.PAWN
                  (fun bb => bb.clearBit captureSquare)
                let b := b.modSideBB oppositeColorIdx (fun bb => bb.clearBit captureSquare)
                let b := b.setPieceAt captureSquare PIECES.NONE
                (b, some captureSquare)
              else (b, none)
            else (b, none)
          else (b, none)
        let b := epRes.1
        -- clear en passant square, then set it again on a double push
        let b := b.setEnPassant (-1)
        let fromRank := fromSquare / 8
        let toRank := toSquare / 8
        let rankDiff := ((fromRank : Int) - (toRank : Int)).natAbs
        let b :=
          if rankDiff = 2 then
            b.setEnPassant (if movingColor = Color.white then (toSquare : Int) + 8
              else (toSquare : Int) - 8)
          else b
        let finalPiece :=
          if (movingColor = Color.white ∧ toRank = 7) ∨
             (movingColor = Color.black ∧ toRank = 0) then
            jsOrDefaultNat promotionPiece PIECES.QUEEN
          else movingPiece
        (b, epRes.2, finalPiece)
      else
        (b.setEnPassant (-1), none, movingPiece)
    let b := pawnStep.1
    let finalPiece := pawnStep.2.2
    -- king moves: castling rights and the castling rook; returns the board
    -- and `moveInfo.castlingRook`
    let kingStep : Board × Option (Nat × Nat) :=
      if movingPiece = PIECES.KING then
        let b :=
          if movingColor = Color.white then
            b.setCastlingRights (b.gameState.castling &&&
              complement32 (CASTLING.WHITE_KINGSIDE ||| CASTLING.WHITE_QUEENSIDE))
          else
            b.setCastlingRights (b.gameState.castling &&&
              complement32 (CASTLING.BLACK_KINGSIDE ||| CASTLING.BLACK_QUEENSIDE))
        let fileDiff : Int := ((toSquare % 8 : Nat) : Int) - ((fromSquare % 8 : Nat) : Int)
        if fileDiff.natAbs = 2 then
          let rank := fromSquare / 8
          if 0 < fileDiff then
            let rookFrom := rank * 8 + 7
            let rookTo := rank * 8 + 5
            let b := b.xorZobrist (zPieceSeed movingColorIdx PIECES.ROOK rookFrom)
            let b := b.xorZobrist (zPieceSeed movingColorIdx PIECES.ROOK rookTo)
            let b := b.modPiecesBB movingColorIdx PIECES.ROOK
              (fun bb => (bb.clearBit rookFrom).setBit rookTo)
            let b := b.modSideBB movingColorIdx
              (fun bb => (bb.clearBit rookFrom).setBit rookTo)
            let b := b.setPieceAt rookFrom PIECES.NONE
            let b := b.setPieceAt rookTo PIECES.ROOK
            (b, some (rookFrom, rookTo))
          else
            let rookFrom := rank * 8
            let rookTo := rank * 8 + 3
            let b := b.xorZobrist (zPieceSeed movingColorIdx PIECES.ROOK rookFrom)
            let b := b.xorZobrist (zPieceSeed movingColorIdx PIECES.ROOK rookTo)
            let b := b.modPiecesBB movingColorIdx PIECES.ROOK
              (fun bb => (bb.clearBit rookFrom).setBit rookTo)
            let b := b.modSideBB movingColorIdx
              (fun bb => (bb.clearBit rookFrom).setBit rookTo)
            let b := b.setPieceAt rookFrom PIECES.NONE
            let b := b.setPieceAt rookTo PIECES.ROOK
            (b, some (rookFrom, rookTo))
        else (b, none)
      else (b, none)
    let b := kingStep.1
    -- rook moves: update castling rights
    let b :=
      if movingPiece = PIECES.ROOK then
        if movingColor = Color.white then
          if (fromSquare : Int) = squareToIndex "a1" then
            b.setCastlingRights (b.gameState.castling &&& complement32 CASTLING.WHITE_QUEENSIDE)
          else if (fromSquare : Int) = squareToIndex "h1" then
            b.setCastlingRights (b.gameState.castling &&& complement32 CASTLING.WHITE_KINGSIDE)
          else b
        else
          if (fromSquare : Int) = squareToIndex "a8" then
            b.setCastlingRights (b.gameState.castling &&& complement32 CASTLING.BLACK_QUEENSIDE)
          else if (fromSquare : Int) = squareToIndex "h8" then
            b.setCastlingRights (b.gameState.castling &&& complement32 CASTLING.BLACK_KINGSIDE)
          else b
      else b
    -- rook captures: update castling rights
    let b :=
      if capturedPiece = PIECES.ROOK then
        if (toSquare : Int) = squareToIndex "a1" then
          b.setCastlingRights (b.gameState.castling &&& complement32 CASTLING.WHITE_QUEENSIDE)
        else if (toSquare : Int) = squareToIndex "h1" then
          b.setCastlingRights (b.gameState.castling &&& complement32 CASTLING.WHITE_KINGSIDE)
        else if (toSquare : Int) = squareToIndex "a8" then
          b.setCastlingRights (b.gameState.castling &&& complement32 CASTLING.BLACK_QUEENSIDE)
        else if (toSquare : Int) = squareToIndex "h8" then
          b.setCastlingRights (b.gameState.castling &&& complement32 CASTLING.BLACK_KINGSIDE)
        else b
      else b
    -- place piece at destination
    let b := b.xorZobrist (zPieceSeed movingColorIdx finalPiece toSquare)
    let b := b.modPiecesBB movingColorIdx finalPiece (fun bb => bb.setBit toSquare)
    let b := b.modSideBB movingColorIdx (fun bb => bb.setBit toSquare)
    let b := b.setPieceAt toSquare finalPiece
    -- move counters
    let b :=
      if movingColor = Color.black then b.setFullMoveCount (b.gameState.full_move_count + 1)
      else b
    -- Zobrist: en passant change
    let b :=
      if previousEnPassantSq ≠ b.gameState.en_passant_sq then
        let b := b.xorZobrist (zEnPassantSeed (getEnPassantZobristIndex previousEnPassantSq))
        b.xorZobrist (zEnPassantSeed (getEnPassantZobristIndex b.gameState.en_passant_sq))
      else b
    -- Zobrist: castling change
    let b :=
      if previousCastling ≠ b.gameState.castling then
        let b := b.xorZobrist (zCastlingSeed previousCastling)
        b.xorZobrist (zCastlingSeed b.gameState.castling)
      else b
    -- Zobrist: switch side to move; switch active color
    let b := b.xorZobrist (zSideSeed (if movingColor = Color.white then 0 else 1))
    let b := b.xorZobrist (zSideSeed (if oppositeColor = Color.white then 0 else 1))
    let b := b.setActiveColor oppositeColor
    let moveInfo : MoveInfo :=
      { fromSq := fromSquare, toSq := toSquare,
        movingPiece := movingPiece, capturedPiece := capturedPiece,
        enPassantCapture := pawnStep.2.1, castlingRook := kingStep.2,
        promotionPiece := promotionPiece,
        oldEnPassantSq := previousEnPassantSq, oldCastling := previousCastling }
    { b with historyStates := b.historyStates ++ [pushedState],
             historyMoves := b.historyMoves ++ [moveInfo] }

/-- `Board.undoMove()`.  An empty history leaves the board unchanged (the
source returns `false`). -/
def Board.undoMove (b : Board) : Board :=
  if b.historyStates.length = 0 then b
  else
    match b.historyMoves.getLast? with
    | none => b
    | some moveInfo =>
      let currentActiveColor := b.gameState.active_color
      let movingColor := currentActiveColor.opp
      -- `this.gameState = this.history.pop()` (pops both stacks)
      let b := { b with gameState := b.historyStates.getLastD b.gameState,
                        historyStates := b.historyStates.dropLast,
                        historyMoves := b.historyMoves.dropLast }
      let movingColorIdx := colorToIndex movingColor
      let oppositeColorIdx := colorToIndex currentActiveColor
      -- remove the piece from the destination first
      let pieceAtDestination := jsOrDefaultNat moveInfo.promotionPiece moveInfo.movingPiece
      let b := b.modPiecesBB movingColorIdx pieceAtDestination (fun bb => bb.clearBit moveInfo.toSq)
      let b := b.modSideBB movingColorIdx (fun bb => bb.clearBit moveInfo.toSq)
      -- restore the moving piece to its original square
      let restoredPiece :=
        if jsTruthyNat moveInfo.promotionPiece then PIECES.PAWN else moveInfo.movingPiece
      let b := b.modPiecesBB movingColorIdx restoredPiece (fun bb => bb.setBit moveInfo.fromSq)
      let b := b.modSideBB movingColorIdx (fun bb => bb.setBit moveInfo.fromSq)
      let b := b.setPieceAt moveInfo.fromSq restoredPiece
      -- restore a captured piece
      let b :=
        if moveInfo.capturedPiece ≠ PIECES.NONE then
          let b := b.modPiecesBB oppositeColorIdx moveInfo.capturedPiece
            (fun bb => bb.setBit moveInfo.toSq)
          let b := b.modSideBB oppositeColorIdx (fun bb => bb.setBit moveInfo.toSq)
          b.setPieceAt moveInfo.toSq moveInfo.capturedPiece
        else b.setPieceAt moveInfo.toSq PIECES.NONE
      -- restore an en passant capture
      let b :=
        match moveInfo.enPassantCapture with
        | some cap =>
          let b := b.modPiecesBB oppositeColorIdx PIECES.PAWN (fun bb => bb.setBit cap)
          let b := b.modSideBB oppositeColorIdx (fun bb => bb.setBit cap)
          b.setPieceAt cap PIECES.PAWN
        | none => b
      -- restore a castling rook
      match moveInfo.castlingRook with
      | some rook =>
        let b := b.modPiecesBB movingColorIdx PIECES.ROOK
          (fun bb => (bb.clearBit rook.2).setBit rook.1)
        let b := b.modSideBB movingColorIdx (fun bb => (bb.clearBit rook.2).setBit rook.1)
        let b := b.setPieceAt rook.1 PIECES.ROOK
        b.setPieceAt rook.2 PIECES.NONE
      | none => b

/-- `board.getOccupancy()`. -/
def Board.getOccupancy (b : Board) : BitBoard := (b.sideBB 0).bor (b.sideBB 1)

/-- `Board.clone()` overwrites every field of a fresh board with copies of
this board's fields, hence it is the identity on the represented value. -/
def Board.clone (b : Board) : Board := b

/-! ## The starting position (`initializeBitboards`, `initializePieceList`,
`new Board()`) -/

/-- Square index of an algebraic name, as a `Nat` (all uses are in range). -/
def sqIdx (s : String) : Nat := (squareToIndex s).toNat

/-- `initializeBitboards()`: the twelve piece boards of the start position,
indexed `[color][piece]` in the `PIECES` code order. -/
def initialBbPieces : List (List BitBoard) :=
  let wp := (List.range' 8 8).foldl (fun bb i => bb.setBit i) emptyBB
  let bp := (List.range' 48 8).foldl (fun bb i => bb.setBit i) emptyBB
  [ [ emptyBB.setBit (sqIdx "e1"),
      emptyBB.setBit (sqIdx "d1"),
      (emptyBB.setBit (sqIdx "a1")).setBit (sqIdx "h1"),
      (emptyBB.setBit (sqIdx "c1")).setBit (sqIdx "f1"),
      (emptyBB.setBit (sqIdx "b1")).setBit (sqIdx "g1"),
      wp ],
    [ emptyBB.setBit (sqIdx "e8"),
      emptyBB.setBit (sqIdx "d8"),
      (emptyBB.setBit (sqIdx "a8")).setBit (sqIdx "h8"),
      (emptyBB.setBit (sqIdx "c8")).setBit (sqIdx "f8"),
      (emptyBB.setBit (sqIdx "b8")).setBit (sqIdx "g8"),
      bp ] ]

/-- `initializeBitboards()`: side occupancy, the union over the six kinds. -/
def initialBbSide : List BitBoard :=
  [ (List.range 6).foldl (fun acc p => acc.bor ((initialBbPieces.getD 0 []).getD p emptyBB)) emptyBB,
    (List.range 6).foldl (fun acc p => acc.bor ((initialBbPieces.getD 1 []).getD p emptyBB)) emptyBB ]

/-- `initializePieceList()`. -/
def initialPieceList : List Nat :=
  let base := (List.replicate 64 PIECES.NONE)
  let base := ([ (sqIdx "a1", PIECES.ROOK), (sqIdx "b1", PIECES.KNIGHT),
      (sqIdx "c1", PIECES.BISHOP), (sqIdx "d1", PIECES.QUEEN),
      (sqIdx "e1", PIECES.KING), (sqIdx "f1", PIECES.BISHOP),
      (sqIdx "g1", PIECES.KNIGHT), (sqIdx "h1", PIECES.ROOK) ]).foldl
    (fun l p => l.set p.1 p.2) base
  let base := (List.range' 8 8).foldl (fun l i => l.set i PIECES.PAWN) base
  let base := ([ (sqIdx "a8", PIECES.ROOK), (sqIdx "b8", PIECES.KNIGHT),
      (sqIdx "c8", PIECES.BISHOP), (sqIdx "d8", PIECES.QUEEN),
      (sqIdx "e8", PIECES.KING), (sqIdx "f8", PIECES.BISHOP),
      (sqIdx "g8", PIECES.KNIGHT), (sqIdx "h8", PIECES.ROOK) ]).foldl
    (fun l p => l.set p.1 p.2) base
  (List.range' 48 8).foldl (fun l i => l.set i PIECES.PAWN) base

/-- `new GameState()`. -/
def initialGameState : GameState :=
  { active_color := Color.white, castling := CASTLING.ALL, half_move_clock := 0,
    en_passant_sq := -1, full_move_count := 1, zobrist_key := 0 }

/-- `new Board()`: the start position, with the Zobrist key computed by
`zobristInit` as in the constructor. -/
def initialBoard : Board :=
  let b : Board :=
    { bbPieces := initialBbPieces, bbSide := initialBbSide,
      pieceList := initialPieceList, gameState := initialGameState,
      historyStates := [], historyMoves := [] }
  b.setZobrist (zobristInit b b.gameState)

/-! ## Claims C1, C2, C5: `makeMove`/`undoMove`, the en-passant square and
the incremental Zobrist key

The three theorems below evaluate the embedded code on the concrete inputs
on which the claims fail; see `RESULTS.json` for the full diagnosis. -/

/-- The position after the legal opening 1. a4 b5 2. axb5 h6 3. b6 h5
4. b7 h4 — a reachable position in which White's pawn on b7 may legally
capture the rook on a8 and promote. -/
def promoSetupBoard : Board :=
  ((((((((initialBoard.makeMove 8 24 none).makeMove 49 33 none).makeMove 24 33
    none).makeMove 55 47 none).makeMove 33 41 none).makeMove 47 39
    none).makeMove 41 49 none).makeMove 39 31 none)

set_option maxRecDepth 100000 in
/-- Claim C1 (evidence of failure): from the reachable position
`promoSetupBoard`, making the legal promotion capture b7xa8 with
`promotionPiece = null` (which `makeMove` defaults to a queen) and then
undoing it does NOT restore the position bit-for-bit: `undoMove` computes
the piece standing on the destination as `promotionPiece || movingPiece`,
i.e. the pawn, so the white queen bitboard keeps a stale bit on a8
(`high = 2^24`) while every other component is restored.  The claim's
promised round-trip therefore fails on exactly this bitboard. -/
theorem claim_C1_null_promotion_undo_corrupts :
    ((promoSetupBoard.makeMove 49 56 none).undoMove).piecesBB 0 PIECES.QUEEN =
        ⟨8, 16777216⟩ ∧
    promoSetupBoard.piecesBB 0 PIECES.QUEEN = ⟨8, 0⟩ ∧
    ((promoSetupBoard.makeMove 49 56 none).undoMove).pieceList = promoSetupBoard.pieceList ∧
    ((promoSetupBoard.makeMove 49 56 none).undoMove).gameState = promoSetupBoard.gameState ∧
    ((promoSetupBoard.makeMove 49 56 none).undoMove) ≠ promoSetupBoard := by
  refine ⟨by decide, by decide, by decide, by decide, ?_⟩
  intro h
  have hq := congrArg (fun bd => bd.piecesBB 0 PIECES.QUEEN) h
  revert hq
  decide

set_option maxRecDepth 100000 in
/-- Claim C2 (evidence of failure): after the single legal move e2e4 from
the initial position, the incrementally maintained `zobrist_key` differs
from the from-scratch `zobristInit` value of the resulting position (they
differ by the `en_passant[16]` seed: the double push stores `en_passant_sq
= 36`, a rank-5 square, which `getEnPassantZobristIndex` maps to the
"none" index 16 while `zobristInit` adds no en-passant seed at all for
that rank). -/
theorem claim_C2_zobrist_incremental_mismatch :
    (initialBoard.makeMove 12 28 none).gameState.zobrist_key ≠
      zobristInit (initialBoard.makeMove 12 28 none)
        (initialBoard.makeMove 12 28 none).gameState := by
  decide

set_option maxRecDepth 100000 in
/-- Claim C5 (evidence of failure): the white double push e2e4 stores
`en_passant_sq = 36` (e5, the square in front of the pawn's destination)
rather than 20 (e3, the passed-over square the claim specifies); the black
double push e7e5 then stores 28 (e4) rather than 44 (e6). -/
theorem claim_C5_en_passant_square_wrong_rank :
    (initialBoard.makeMove 12 28 none).gameState.en_passant_sq = 36 ∧
    (initialBoard.makeMove 12 28 none).gameState.en_passant_sq ≠ 20 ∧
    ((initialBoard.makeMove 12 28 none).makeMove 52 36 none).gameState.en_passant_sq = 28 ∧
    ((initialBoard.makeMove 12 28 none).makeMove 52 36 none).gameState.en_passant_sq ≠ 44 := by
  refine ⟨by decide, by decide, by decide, by decide⟩

/-! ## Move generation from `src/utils/chessLogic.js`

The generators work in UI coordinates (`row 0 = rank 8`); rows and columns
are `Int` because the source freely computes out-of-board candidates before
bounds-checking them. -/

/-- `rowColToIndex(row, col)`. -/
def rowColToIndex (row col : Int) : Int := (7 - row) * 8 + col

/-- `indexToRowCol(index)` for a square index. -/
def indexToRowCol (index : Nat) : Int × Int :=
  (7 - ((index / 8 : Nat) : Int), ((index % 8 : Nat) : Int))

/-- `board.pieceList[index]` under an `Int` index: out-of-range access
yields `undefined` in JS, which compares unequal to every piece code just
like `PIECES.NONE` does in the contexts below; both lead to the same
control flow, so `NONE` is used as the out-of-range value. -/
def Board.pieceAtI (b : Board) (index : Int) : Nat :=
  if 0 ≤ index ∧ index < 64 then b.pieceList.getD index.toNat PIECES.NONE
  else PIECES.NONE

/-- `deepCopyBoard` from `src/utils/chessUtils.js` (`board.clone()`). -/
def deepCopyBoard (b : Board) : Board := b.clone

/-- `canMoveTo(board, targetRow, targetCol, color)`. -/
def canMoveTo (b : Board) (targetRow targetCol : Int) (color : Color) : Bool :=
  if targetRow < 0 ∨ 8 ≤ targetRow ∨ targetCol < 0 ∨ 8 ≤ targetCol then false
  else
    let targetIndex := rowColToIndex targetRow targetCol
    let targetColor := getPieceColor b.bbSide targetIndex
    let oppositeColor := color.opp
    decide (targetColor = none ∨ targetColor = some oppositeColor)

/-- `getValidPawnMoves(row, col, board, color)`. -/
def getValidPawnMoves (row col : Int) (b : Board) (color : Color) : List (Int × Int) :=
  let oppositeColor := color.opp
  let direction : Int := if color = Color.white then -1 else 1
  let startingRank : Int := if color = Color.white then 6 else 1
  let enPassantRank : Int := if color = Color.white then 3 else 4
  -- forward moves (single, then double push from the starting rank)
  let oneSquareForward := row + direction
  let forwardMoves : List (Int × Int) :=
    if 0 ≤ oneSquareForward ∧ oneSquareForward < 8 then
      let forwardIndex := rowColToIndex oneSquareForward col
      if getPieceColor b.bbSide forwardIndex = none then
        let base := [(oneSquareForward, col)]
        if row = startingRank then
          let twoSquaresForward := row + 2 * direction
          let doublePushIndex := rowColToIndex twoSquaresForward col
          if getPieceColor b.bbSide doublePushIndex = none then
            base ++ [(twoSquaresForward, col)]
          else base
        else base
      else []
    else []
  -- diagonal captures
  let capMoves := ([-1, 1] : List Int).foldl (fun acc dcol =>
    let targetRow := row + direction
    let targetCol := col + dcol
    if 0 ≤ targetRow ∧ targetRow < 8 ∧ 0 ≤ targetCol ∧ targetCol < 8 then
      let targetIndex := rowColToIndex targetRow targetCol
      let targetColor := getPieceColor b.bbSide targetIndex
      if targetColor = some oppositeColor then acc ++ [(targetRow, targetCol)] else acc
    else acc) []
  let moves := forwardMoves ++ capMoves
  -- en passant
  if row = enPassantRank ∧ b.gameState.en_passant_sq ≠ -1 then
    let epCol := (indexToRowCol b.gameState.en_passant_sq.toNat).2
    if (epCol - col).natAbs = 1 then
      let enemyPawnIndex := rowColToIndex row epCol
      if getPieceColor b.bbSide enemyPawnIndex = some oppositeColor ∧
          b.pieceAtI enemyPawnIndex = PIECES.PAWN then
        let captureRow := row + direction
        moves ++ [(captureRow, epCol)]
      else moves
    else moves
  else moves

/-- One ray of the rook/bishop `while` walk.  Fuel 8 bounds the walk: each
step moves one square further and the walk stops at the board edge, which
is at most 7 steps away. -/
def slideRay (b : Board) (oppositeColor : Color) : Nat → Int → Int → Int → Int → List (Int × Int)
  | 0, _, _, _, _ => []
  | fuel + 1, r, c, dr, dc =>
    if 0 ≤ r ∧ r < 8 ∧ 0 ≤ c ∧ c < 8 then
      let targetIndex := rowColToIndex r c
      let targetColor := getPieceColor b.bbSide targetIndex
      if targetColor = none then
        (r, c) :: slideRay b oppositeColor fuel (r + dr) (c + dc) dr dc
      else if targetColor = some oppositeColor then [(r, c)]
      else []
    else []

/-- `getValidRookMoves(row, col, board, color)`. -/
def getValidRookMoves (row col : Int) (b : Board) (color : Color) : List (Int × Int) :=
  let oppositeColor := color.opp
  ([((1 : Int), (0 : Int)), (-1, 0), (0, 1), (0, -1)]).foldl
    (fun acc d => acc ++ slideRay b oppositeColor 8 (row + d.1) (col + d.2) d.1 d.2) []

/-- `getValidBishopMoves(row, col, board, color)`. -/
def getValidBishopMoves (row col : Int) (b : Board) (color : Color) : List (Int × Int) :=
  let oppositeColor := color.opp
  ([((1 : Int), (1 : Int)), (1, -1), (-1, 1), (-1, -1)]).foldl
    (fun acc d => acc ++ slideRay b oppositeColor 8 (row + d.1) (col + d.2) d.1 d.2) []

/-- `getValidQueenMoves(row, col, board, color)`. -/
def getValidQueenMoves (row col : Int) (b : Board) (color : Color) : List (Int × Int) :=
  getValidRookMoves row col b color ++ getValidBishopMoves row col b color

/-- `getValidKnightMoves(row, col, board, color)`. -/
def getValidKnightMoves (row col : Int) (b : Board) (color : Color) : List (Int × Int) :=
  ([((2 : Int), (1 : Int)), (2, -1), (-2, 1), (-2, -1),
    (1, 2), (1, -2), (-1, 2), (-1, -2)]).foldl
    (fun acc d =>
      if canMoveTo b (row + d.1) (col + d.2) color then acc ++ [(row + d.1, col + d.2)]
      else acc) []

/-- The eight-direction part of `getValidKingMoves` (always generated). -/
def kingBaseMoves (row col : Int) (b : Board) (color : Color) : List (Int × Int) :=
  ([((1 : Int), (0 : Int)), (-1, 0), (0, 1), (0, -1),
    (1, 1), (1, -1), (-1, 1), (-1, -1)]).foldl
    (fun acc d =>
      if canMoveTo b (row + d.1) (col + d.2) color then acc ++ [(row + d.1, col + d.2)]
      else acc) []

/-- `getValidMoves(row, col, board, false)`: the move dispatch with castling
generation suppressed.  `isInCheck` calls `getValidMoves` in exactly this
form, which avoids the mutual recursion of the source. -/
def getValidMovesNoCastle (row col : Int) (b : Board) : List (Int × Int) :=
  let index := rowColToIndex row col
  let piece := b.pieceAtI index
  if piece = PIECES.NONE then []
  else
    match getPieceColor b.bbSide index with
    | none => []
    | some color =>
      if piece = PIECES.PAWN then getValidPawnMoves row col b color
      else if piece = PIECES.ROOK then getValidRookMoves row col b color
      else if piece = PIECES.KNIGHT then getValidKnightMoves row col b color
      else if piece = PIECES.BISHOP then getValidBishopMoves row col b color
      else if piece = PIECES.QUEEN then getValidQueenMoves row col b color
      else if piece = PIECES.KING then kingBaseMoves row col b color
      else []

/-- `isInCheck(board, color)`. -/
def isInCheck (b : Board) (color : Color) : Bool :=
  let colorIdx := colorToIndex color
  let kingBB := b.piecesBB colorIdx PIECES.KING
  let kingSquare := kingBB.getLSB
  if kingSquare = -1 then false
  else
    let kingRow := (indexToRowCol kingSquare.toNat).1
    let kingCol := (indexToRowCol kingSquare.toNat).2
    let oppositeColorIdx := colorToIndex color.opp
    (List.range 6).any (fun pieceType =>
      (drainSquares (b.piecesBB oppositeColorIdx pieceType)).any (fun square =>
        let rc := indexToRowCol square
        (getValidMovesNoCastle rc.1 rc.2 b).any (fun m =>
          m.1 == kingRow && m.2 == kingCol)))

/-- The castling block of `getValidKingMoves` (run when `checkCastling`). -/
def castlingMoves (row col : Int) (b : Board) (color : Color) : List (Int × Int) :=
  let castling := b.gameState.castling
  let backRank : Int := if color = Color.white then 7 else 0
  if row = backRank ∧ col = 4 ∧ ¬ (isInCheck b color = true) then
    let kingSide : List (Int × Int) :=
      let kingSideMask :=
        if color = Color.white then CASTLING.WHITE_KINGSIDE else CASTLING.BLACK_KINGSIDE
      if castling &&& kingSideMask ≠ 0 then
        let f := rowColToIndex backRank 5
        let g := rowColToIndex backRank 6
        if ¬ (b.getOccupancy.getBit f.toNat = true) ∧
            ¬ (b.getOccupancy.getBit g.toNat = true) then
          let kingIndex := rowColToIndex row col
          let testBoard1 := (deepCopyBoard b).makeMove kingIndex.toNat f.toNat none
          if ¬ (isInCheck testBoard1 color = true) then [(backRank, 6)] else []
        else []
      else []
    let queenSide : List (Int × Int) :=
      let queenSideMask :=
        if color = Color.white then CASTLING.WHITE_QUEENSIDE else CASTLING.BLACK_QUEENSIDE
      if castling &&& queenSideMask ≠ 0 then
        let bsq := rowColToIndex backRank 1
        let csq := rowColToIndex backRank 2
        let dsq := rowColToIndex backRank 3
        if ¬ (b.getOccupancy.getBit bsq.toNat = true) ∧
            ¬ (b.getOccupancy.getBit csq.toNat = true) ∧
            ¬ (b.getOccupancy.getBit dsq.toNat = true) then
          let kingIndex := rowColToIndex row col
          let testBoard1 := (deepCopyBoard b).makeMove kingIndex.toNat dsq.toNat none
          if ¬ (isInCheck testBoard1 color = true) then [(backRank, 2)] else []
        else []
      else []
    kingSide ++ queenSide
  else []

/-- `getValidKingMoves(row, col, board, color, checkCastling)`. -/
def getValidKingMoves (row col : Int) (b : Board) (color : Color)
    (checkCastling : Bool) : List (Int × Int) :=
  kingBaseMoves row col b color ++
    (if checkCastling then castlingMoves row col b color else [])

/-- `getValidMoves(row, col, board, checkCastling = true)`. -/
def getValidMoves (row col : Int) (b : Board) (checkCastling : Bool) : List (Int × Int) :=
  let index := rowColToIndex row col
  let piece := b.pieceAtI index
  if piece = PIECES.NONE then []
  else
    match getPieceColor b.bbSide index with
    | none => []
    | some color =>
      if piece = PIECES.PAWN then getValidPawnMoves row col b color
      else if piece = PIECES.ROOK then getValidRookMoves row col b color
      else if piece = PIECES.KNIGHT then getValidKnightMoves row col b color
      else if piece = PIECES.BISHOP then getValidBishopMoves row col b color
      else if piece = PIECES.QUEEN then getValidQueenMoves row col b color
      else if piece = PIECES.KING then getValidKingMoves row col b color checkCastling
      else []

/-- Sanity bridge: passing `checkCastling = false` to the full dispatch is
the suppressed dispatch used inside `isInCheck`. -/
theorem getValidMoves_no_castling (row col : Int) (b : Board) :
    getValidMoves row col b false = getValidMovesNoCastle row col b := by
  unfold getValidMoves getValidMovesNoCastle getValidKingMoves
  simp

/-- `simulateMove(fromRow, fromCol, toRow, toCol, board)`: copies the board
and either flags a pending promotion (leaving the copy untouched) or
applies `makeMove` with a `null` promotion piece. -/
def simulateMove (fromRow fromCol toRow toCol : Int) (b : Board) : Board × Bool :=
  let newBoard := deepCopyBoard b
  let fromIndex := rowColToIndex fromRow fromCol
  let toIndex := rowColToIndex toRow toCol
  let piece := newBoard.pieceAtI fromIndex
  let color := getPieceColor newBoard.bbSide fromIndex
  if piece = PIECES.PAWN ∧
      ((color = some Color.white ∧ toRow = 0) ∨ (color = some Color.black ∧ toRow = 7)) then
    (newBoard, true)
  else
    (newBoard.makeMove fromIndex.toNat toIndex.toNat none, false)

/-- Claim C9: for every board and move coordinates, if the moving piece is
a pawn and the destination row is the last rank for its color, then
`simulateMove` returns `needsPromotion = true` together with the *unchanged*
input position (every bitboard, the piece list and the game state equal the
input's — in this embedding the copy is the board value itself); for every
other move it returns `needsPromotion = false` and the board with
`makeMove` applied (null promotion piece).  Search and legality filtering
therefore evaluate promotion candidates against the pre-move position. -/
theorem claim_C9_simulateMove_promotion (b : Board) (fromRow fromCol toRow toCol : Int) :
    ((b.pieceAtI (rowColToIndex fromRow fromCol) = PIECES.PAWN ∧
      ((getPieceColor b.bbSide (rowColToIndex fromRow fromCol) = some Color.white ∧ toRow = 0) ∨
       (getPieceColor b.bbSide (rowColToIndex fromRow fromCol) = some Color.black ∧ toRow = 7))) →
      simulateMove fromRow fromCol toRow toCol b = (b, true)) ∧
    (¬ (b.pieceAtI (rowColToIndex fromRow fromCol) = PIECES.PAWN ∧
      ((getPieceColor b.bbSide (rowColToIndex fromRow fromCol) = some Color.white ∧ toRow = 0) ∨
       (getPieceColor b.bbSide (rowColToIndex fromRow fromCol) = some Color.black ∧ toRow = 7))) →
      simulateMove fromRow fromCol toRow toCol b =
        (b.makeMove (rowColToIndex fromRow fromCol).toNat
          (rowColToIndex toRow toCol).toNat none, false)) := by
  constructor
  · intro h
    unfold simulateMove deepCopyBoard Board.clone
    rw [if_pos h]
  · intro h
    unfold simulateMove deepCopyBoard Board.clone
    rw [if_neg h]

set_option maxRecDepth 100000 in
/-- Witness for C9: in the reachable position `promoSetupBoard` the
promotion candidate b7→a8 (UI rows: from (1,1) to (0,0)) is flagged and
leaves the board untouched, and the non-promotion move a2→a3 (UI rows:
from (6,0) to (5,0)) is applied via `makeMove`. -/
theorem claim_C9_witness :
    (promoSetupBoard.pieceAtI (rowColToIndex 1 1) = PIECES.PAWN ∧
      getPieceColor promoSetupBoard.bbSide (rowColToIndex 1 1) = some Color.white ∧ (0 : Int) = 0) ∧
    simulateMove 1 1 0 0 promoSetupBoard = (promoSetupBoard, true) ∧
    (¬ promoSetupBoard.pieceAtI (rowColToIndex 6 0) = PIECES.PAWN ∨ True) ∧
    simulateMove 6 0 5 0 promoSetupBoard =
      (promoSetupBoard.makeMove (rowColToIndex 6 0).toNat (rowColToIndex 5 0).toNat none, false) :=
  ⟨⟨by decide, by decide, rfl⟩,
    (claim_C9_simulateMove_promotion promoSetupBoard 1 1 0 0).1
      ⟨by decide, Or.inl ⟨by decide, rfl⟩⟩,
    Or.inr trivial,
    (claim_C9_simulateMove_promotion promoSetupBoard 6 0 5 0).2 (by decide)⟩

/-! ## `src/players/BotPlayer.js`: moves, ordering, and the score type -/

/-- JS numeric search scores including the `±Infinity` sentinels.  Finite
scores are rationals (JS doubles; the only claim-relevant operations are
order comparisons, which agree). -/
inductive Sc
  | ninf
  | fin (q : ℚ)
  | inf
deriving DecidableEq, Repr

/-- JS `a < b` on scores. -/
def Sc.jlt : Sc → Sc → Bool
  | Sc.ninf, Sc.ninf => false
  | Sc.ninf, _ => true
  | Sc.fin _, Sc.ninf => false
  | Sc.fin a, Sc.fin b => a < b
  | Sc.fin _, Sc.inf => true
  | Sc.inf, _ => false

/-- JS `a <= b` on scores (`!(b < a)`; no NaN arises). -/
def Sc.jle (a b : Sc) : Bool := ! Sc.jlt b a

/-- `Math.max`. -/
def Sc.jmax (a b : Sc) : Sc := if Sc.jlt a b then b else a

/-- `Math.min`. -/
def Sc.jmin (a b : Sc) : Sc := if Sc.jlt b a then b else a

/-- `Math.abs(score) > q` (`Math.abs(±Infinity) = Infinity`). -/
def Sc.absGt (a : Sc) (q : ℚ) : Bool :=
  match a with
  | Sc.ninf => true
  | Sc.inf => true
  | Sc.fin x => q < |x|

/-- A legal-move record as produced by `BotPlayer.getLegalMovesForColor`:
`fromRC`/`toRC` are the `from`/`to` row–column pairs. -/
structure Move where
  fromRC : Int × Int
  toRC : Int × Int
  fromSquare : Nat
  toSquare : Nat
  piece : Nat
  capturedPiece : Option Nat
  isPromotion : Bool
deriving DecidableEq, Repr

/-- `BotPlayer.getLegalMovesForColor(board, color)`. -/
def getLegalMovesForColor (b : Board) (color : Color) : List Move :=
  let colorIdx := colorToIndex color
  (List.range 6).foldl (fun moves pieceType =>
    (drainSquares (b.piecesBB colorIdx pieceType)).foldl (fun moves fromSquare =>
      let fromRow := (indexToRowCol fromSquare).1
      let fromCol := (indexToRowCol fromSquare).2
      (getValidMoves fromRow fromCol b true).foldl (fun moves rc =>
        let sim := simulateMove fromRow fromCol rc.1 rc.2 b
        if ¬ (isInCheck sim.1 color = true) then
          let toSquare := (rowColToIndex rc.1 rc.2).toNat
          moves ++ [{ fromRC := (fromRow, fromCol), toRC := rc,
                      fromSquare := fromSquare, toSquare := toSquare,
                      piece := pieceType,
                      capturedPiece :=
                        if b.pieceAt toSquare ≠ PIECES.NONE then some (b.pieceAt toSquare)
                        else none,
                      isPromotion := decide (pieceType = PIECES.PAWN ∧
                        ((color = Color.white ∧ rc.1 = 0) ∨
                         (color = Color.black ∧ rc.1 = 7))) }]
        else moves) moves) moves) []

/-! ### Move ordering (`MOVE_PRIORITY`, `MVVLVAOrdering`, killer moves,
history heuristic, pawn-push bonus) -/

namespace MOVE_PRIORITY

def PROMOTION : Int := 15000
def WINNING_CAPTURE : Int := 12000
def KILLER_MOVE : Int := 10000
def EQUAL_CAPTURE : Int := 9000
def OPENING_BOOK : Int := 8500
def PAWN_DOUBLE_PUSH : Int := 8000
def LOSING_CAPTURE : Int := 7000
def HISTORY : Int := 0

end MOVE_PRIORITY

/-- `MAX_OPENING_BOOK_MOVE`. -/
def MAX_OPENING_BOOK_MOVE : Nat := 15

/-- `MVVLVAOrdering.getScore(move)`.  `if (!move.capturedPiece) return 0`
is JS truthiness: both `null` and the (never legally capturable) king code
`0` are falsy. -/
def mvvlvaGetScore (move : Move) : Int :=
  if ¬ (jsTruthyNat move.capturedPiece = true) then 0
  else
    let victimValue := PIECE_VALUES (move.capturedPiece.getD 0)
    let attackerValue := PIECE_VALUES move.piece
    let captureScore : Int := (victimValue : Int) * 10 - (attackerValue : Int)
    if 0 < captureScore then MOVE_PRIORITY.WINNING_CAPTURE + captureScore
    else if captureScore = 0 then MOVE_PRIORITY.EQUAL_CAPTURE
    else MOVE_PRIORITY.LOSING_CAPTURE + captureScore

/-- Claim C7: for every capture move (a `capturedPiece` that is *present*
in the JS sense — a truthy piece code, i.e. queen, rook, bishop, knight or
pawn; `null` and the king code `0` are falsy and the code treats such moves
as non-captures) the ordering capture score is the banded MVV−LVA value
`12000 + d` when `d = 10*victim − attacker > 0`, exactly `9000` when
`d = 0`, and `7000 + d` when `d < 0`, with values P=100 N=320 B=330 R=500
Q=900 K=0; moves without a (truthy) captured piece receive `0`. -/
theorem claim_C7_mvvlva_banding (move : Move) :
    (∀ v, move.capturedPiece = some v → 1 ≤ v → v ≤ 5 →
      mvvlvaGetScore move =
        (if 0 < (PIECE_VALUES v : Int) * 10 - (PIECE_VALUES move.piece : Int) then
          12000 + ((PIECE_VALUES v : Int) * 10 - (PIECE_VALUES move.piece : Int))
         else if (PIECE_VALUES v : Int) * 10 - (PIECE_VALUES move.piece : Int) = 0 then 9000
         else 7000 + ((PIECE_VALUES v : Int) * 10 - (PIECE_VALUES move.piece : Int)))) ∧
    (move.capturedPiece = none → mvvlvaGetScore move = 0) ∧
    (move.capturedPiece = some 0 → mvvlvaGetScore move = 0) := by
  refine ⟨?_, ?_, ?_⟩
  · intro v hv h1 h5
    have hvne : v ≠ 0 := by omega
    simp only [mvvlvaGetScore, hv, jsTruthyNat, Option.getD_some,
      MOVE_PRIORITY.WINNING_CAPTURE, MOVE_PRIORITY.EQUAL_CAPTURE,
      MOVE_PRIORITY.LOSING_CAPTURE]
    simp [hvne]
  · intro hv
    simp [mvvlvaGetScore, hv, jsTruthyNat]
  · intro hv
    simp [mvvlvaGetScore, hv, jsTruthyNat]

/-- Concrete ordering inputs for the C7 witness. -/
def mvCaptureQueenWithKnight : Move :=
  { fromRC := (0, 0), toRC := (0, 0), fromSquare := 0, toSquare := 0,
    piece := PIECES.KNIGHT, capturedPiece := some 1, isPromotion := false }

/-- The same move without a capture. -/
def mvQuietKnight : Move :=
  { fromRC := (0, 0), toRC := (0, 0), fromSquare := 0, toSquare := 0,
    piece := PIECES.KNIGHT, capturedPiece := none, isPromotion := false }

/-- Witness for C7: a knight capturing a queen scores
`12000 + (9000 − 320) = 20680`, and the same move without a capture
scores `0`. -/
theorem claim_C7_witness :
    (mvCaptureQueenWithKnight.capturedPiece = some 1 ∧ 1 ≤ 1 ∧ 1 ≤ 5) ∧
    mvvlvaGetScore mvCaptureQueenWithKnight = 20680 ∧
    mvvlvaGetScore mvQuietKnight = 0 := by
  refine ⟨⟨rfl, by decide, by decide⟩, ?_, ?_⟩
  · have h := (claim_C7_mvvlva_banding mvCaptureQueenWithKnight).1 1 rfl (by decide) (by decide)
    rw [h]
    decide
  · exact (claim_C7_mvvlva_banding mvQuietKnight).2.1 rfl

/-- A killer entry `{fromSquare, toSquare}`. -/
structure Killer where
  fromSquare : Nat
  toSquare : Nat
deriving DecidableEq, Repr

/-- JS-object style association update (`obj[k] = v`). -/
def assocSet {kt : Type} {alpha : Type} [DecidableEq kt] :
    List (kt × alpha) → kt → alpha → List (kt × alpha)
  | [], k, v => [(k, v)]
  | (k0, v0) :: rest, k, v =>
    if k0 = k then (k, v) :: rest else (k0, v0) :: assocSet rest k v

/-- The inner scan of `KillerMoveOrdering.getScore`. -/
def killerScoreGo : List Killer → Nat → Move → Int
  | [], _, _ => 0
  | k :: rest, i, move =>
    if move.fromSquare = k.fromSquare ∧ move.toSquare = k.toSquare then
      MOVE_PRIORITY.KILLER_MOVE - (i : Int) * 100
    else killerScoreGo rest (i + 1) move

/-- `evaluatePawnPush(move, board, color)` of `PawnPushHeuristic`. -/
def evaluatePawnPush (move : Move) (b : Board) (color : Color) : Int :=
  if move.piece ≠ PIECES.PAWN then 0
  else
    let fromRow := move.fromRC.1
    let toRow := move.toRC.1
    let col := move.fromRC.2
    let colorIdx := colorToIndex color
    let oppositeColorIdx := colorToIndex color.opp
    let isDoublePush := (toRow - fromRow).natAbs = 2
    if ¬ isDoublePush then 0
    else
      let bonus : Int := 15
      let bonus := if col = 3 ∨ col = 4 then bonus + 20 else bonus
      let bonus := if col = 2 ∨ col = 5 then bonus + 10 else bonus
      -- penalty for blocking an undeveloped back-rank bishop
      let bonus := (drainSquares (b.piecesBB colorIdx PIECES.BISHOP)).foldl
        (fun bonus bishopSquare =>
          let bishopRow := (indexToRowCol bishopSquare).1
          let bishopCol := (indexToRowCol bishopSquare).2
          let backRank : Int := if color = Color.white then 7 else 0
          if bishopRow = backRank then
            let pawnInFront := (color = Color.white ∧ toRow = 5) ∨
              (color = Color.black ∧ toRow = 2)
            if pawnInFront ∧ (bishopCol - col).natAbs = 1 then bonus - 10 else bonus
          else bonus) bonus
      -- bonus for answering an en-passant-enabling push
      let epSquare := b.gameState.en_passant_sq
      let bonus := if epSquare ≠ -1 then bonus + 5 else bonus
      -- bonus when the opponent already controls a central square with a pawn
      let opponentPawnBB := b.piecesBB oppositeColorIdx PIECES.PAWN
      let centralSquares :=
        [rowColToIndex 3 3, rowColToIndex 3 4, rowColToIndex 4 3, rowColToIndex 4 4]
      let opponentControlsCenter := centralSquares.any (fun sq => opponentPawnBB.getBit sq.toNat)
      if opponentControlsCenter ∧ (2 ≤ col ∧ col ≤ 5) then bonus + 15 else bonus

/-! ### The stable descending sort used by `orderMoves`, quiescence capture
ordering and `applyImperfection` (`Array.prototype.sort` with comparator
`(a, b) => b.key - a.key`; the engine's runtime sort is stable) -/

/-- Stable insertion into a descending-sorted list: the new element goes
after every element with a key `≥` its own. -/
def insertByKey {α : Type} (key : α → ℚ) (x : α) : List α → List α
  | [] => [x]
  | y :: rest => if key y < key x then x :: y :: rest else y :: insertByKey key x rest

/-- Stable descending sort by key. -/
def sortByKeyDesc {α : Type} (key : α → ℚ) (l : List α) : List α :=
  l.foldl (fun acc x => insertByKey key x acc) []

theorem insertByKey_perm {α : Type} (key : α → ℚ) (x : α) (l : List α) :
    (insertByKey key x l).Perm (x :: l) := by
  induction l with
  | nil => exact List.Perm.refl _
  | cons y rest ih =>
    by_cases h : key y < key x
    · simp [insertByKey, h]
    · simp only [insertByKey, if_neg h]
      exact (List.Perm.cons y ih).trans (List.Perm.swap x y rest)

theorem sortByKeyDesc_foldl_perm {α : Type} (key : α → ℚ) (l acc : List α) :
    (l.foldl (fun acc x => insertByKey key x acc) acc).Perm (acc ++ l) := by
  induction l generalizing acc with
  | nil => simp
  | cons x rest ih =>
    have h1 := ih (insertByKey key x acc)
    have h2 : (insertByKey key x acc ++ rest).Perm ((x :: acc) ++ rest) :=
      (insertByKey_perm key x acc).append_right rest
    have h3 : ((x :: acc) ++ rest).Perm (acc ++ x :: rest) := List.perm_middle.symm
    simpa using (h1.trans (h2.trans h3))

theorem sortByKeyDesc_perm {α : Type} (key : α → ℚ) (l : List α) :
    (sortByKeyDesc key l).Perm l := by
  simpa [sortByKeyDesc] using sortByKeyDesc_foldl_perm key l []

/-! ### Decision reports and the process-wide report history -/

/-- `PIECE_NAMES[p]`. -/
def PIECE_NAMES (p : Nat) : String :=
  if p = 0 then "King" else if p = 1 then "Queen" else if p = 2 then "Rook"
  else if p = 3 then "Bishop" else if p = 4 then "Knight" else if p = 5 then "Pawn"
  else "None"

/-- The record built by `DecisionReport.formatMove` (`fromS`/`toS` are the
record's `from`/`to`). -/
structure FormattedMove where
  algebraic : String
  fromS : String
  toS : String
  piece : String
  capture : String
  isPromotion : Bool
deriving DecidableEq, Repr

/-- `files[col] + (8 - row)`: the algebraic name of a UI coordinate. -/
def uiSquareName (row col : Int) : String :=
  String.singleton (Char.ofNat (97 + col.toNat)) ++ toString (8 - row)

/-- `DecisionReport.formatMove(move)`. -/
def formatMove : Option Move → Option FormattedMove
  | none => none
  | some move =>
    let fromSquare := uiSquareName move.fromRC.1 move.fromRC.2
    let toSquare := uiSquareName move.toRC.1 move.toRC.2
    let pieceType := PIECE_NAMES move.piece
    let capture :=
      if jsTruthyNat move.capturedPiece then " x " ++ PIECE_NAMES (move.capturedPiece.getD 0)
      else ""
    some { algebraic := fromSquare ++ toSquare, fromS := fromSquare, toS := toSquare,
           piece := pieceType, capture := capture, isPromotion := move.isPromotion }

/-- `openingBookAttempt`. -/
structure BookAttempt where
  tried : Bool
  found : Bool
  move : Option String
  integratedIntoSearch : Bool
deriving DecidableEq, Repr

/-- `searchStats`. -/
structure SearchStats where
  positionsEvaluated : Nat
  maxDepthReached : Nat
  timeSpentMs : Int
  nodesPerSecond : Int
deriving DecidableEq, Repr

/-- One entry of `moveEvaluations`. -/
structure MoveEvaluation where
  move : Option FormattedMove
  score : ℚ
  breakdown : List (String × ℚ)
deriving DecidableEq, Repr

/-- `imperfectionApplied`; `itype` is the record's `type` field. -/
structure Imperfection where
  itype : Option String
  originalMove : Option FormattedMove
deriving DecidableEq, Repr

/-- The `DecisionReport` class state. -/
structure DecisionReport where
  timestamp : String
  botColor : Option Color
  difficulty : Option String
  fen : Option String
  moveNumber : Nat
  legalMoves : List (Option FormattedMove)
  openingBookAttempt : BookAttempt
  searchStats : SearchStats
  moveEvaluations : List MoveEvaluation
  selectedMove : Option FormattedMove
  selectedMoveScore : Option Sc
  imperfectionApplied : Imperfection
  finalMove : Option FormattedMove
deriving DecidableEq, Repr

/-- `DecisionReport.reset()` (the timestamp is the external clock time). -/
def reportReset (timestamp : String) : DecisionReport :=
  { timestamp := timestamp, botColor := none, difficulty := none, fen := none,
    moveNumber := 0, legalMoves := [],
    openingBookAttempt :=
      { tried := false, found := false, move := none, integratedIntoSearch := false },
    searchStats :=
      { positionsEvaluated := 0, maxDepthReached := 0, timeSpentMs := 0, nodesPerSecond := 0 },
    moveEvaluations := [], selectedMove := none, selectedMoveScore := none,
    imperfectionApplied := { itype := none, originalMove := none }, finalMove := none }

/-- The module-level mutable pair `latestReport` / `reportHistory`. -/
structure Globals where
  latestReport : Option DecisionReport
  reportHistory : List DecisionReport
deriving DecidableEq, Repr

/-- `MAX_REPORT_HISTORY`. -/
def MAX_REPORT_HISTORY : Nat := 100

/-- The module-initialization state (`latestReport = null`,
`reportHistory = []`). -/
def initialGlobals : Globals := { latestReport := none, reportHistory := [] }

/-- `clearReportHistory()`. -/
def clearReportHistory (_g : Globals) : Globals := initialGlobals

/-- `BotPlayer.storeReport()`: the stored copy is a value copy of the
decision's report; push, then `shift()` when the cap is exceeded. -/
def storeReport (g : Globals) (r : DecisionReport) : Globals :=
  let hist := g.reportHistory ++ [r]
  { latestReport := some r,
    reportHistory := if MAX_REPORT_HISTORY < hist.length then hist.drop 1 else hist }

theorem storeReport_length_le (g : Globals) (r : DecisionReport)
    (h : g.reportHistory.length ≤ 100) :
    (storeReport g r).reportHistory.length ≤ 100 := by
  have heq : (storeReport g r).reportHistory =
      (if 100 < (g.reportHistory ++ [r]).length then (g.reportHistory ++ [r]).drop 1
       else (g.reportHistory ++ [r])) := rfl
  rw [heq]
  by_cases hc : 100 < (g.reportHistory ++ [r]).length
  · rw [if_pos hc]
    simp only [List.length_drop, List.length_append, List.length_singleton] at hc ⊢
    omega
  · rw [if_neg hc]
    simp only [List.length_append, List.length_singleton] at hc ⊢
    omega

theorem storeReport_foldl_le (rs : List DecisionReport) (g : Globals)
    (h : g.reportHistory.length ≤ 100) :
    (rs.foldl storeReport g).reportHistory.length ≤ 100 := by
  induction rs generalizing g with
  | nil => exact h
  | cons r rest ih => exact ih (storeReport g r) (storeReport_length_le g r h)

/-- Claim C8: `storeReport` appends exactly the one report of the completed
decision, sets `latestReport` to it, evicts the oldest entry (FIFO
`shift()`) exactly when the appended history would exceed 100, and keeps
the history at ≤ 100 entries; consequently after any sequence of completed
decisions from module initialization the history holds at most 100
reports. -/
theorem claim_C8_report_history_bounded (g : Globals) (r : DecisionReport)
    (rs : List DecisionReport) (h : g.reportHistory.length ≤ 100) :
    (storeReport g r).latestReport = some r ∧
    (storeReport g r).reportHistory =
      (if 100 < g.reportHistory.length + 1 then (g.reportHistory ++ [r]).drop 1
       else g.reportHistory ++ [r]) ∧
    (storeReport g r).reportHistory.length ≤ 100 ∧
    (rs.foldl storeReport initialGlobals).reportHistory.length ≤ 100 := by
  refine ⟨rfl, ?_, storeReport_length_le g r h, storeReport_foldl_le rs initialGlobals (by simp [initialGlobals])⟩
  have heq : (storeReport g r).reportHistory =
      (if 100 < (g.reportHistory ++ [r]).length then (g.reportHistory ++ [r]).drop 1
       else (g.reportHistory ++ [r])) := rfl
  rw [heq]
  have hlen : (g.reportHistory ++ [r]).length = g.reportHistory.length + 1 := by simp
  rw [hlen]

/-- A minimal concrete report for the C8 witness. -/
def emptyReport : DecisionReport := reportReset ""

/-- Witness for C8 at the initial module state and an arbitrary report. -/
theorem claim_C8_witness :
    initialGlobals.reportHistory.length ≤ 100 ∧
    ((storeReport initialGlobals emptyReport).latestReport = some emptyReport ∧
      (storeReport initialGlobals emptyReport).reportHistory =
        (if 100 < initialGlobals.reportHistory.length + 1 then
          (initialGlobals.reportHistory ++ [emptyReport]).drop 1
         else initialGlobals.reportHistory ++ [emptyReport]) ∧
      (storeReport initialGlobals emptyReport).reportHistory.length ≤ 100 ∧
      (([emptyReport, emptyReport]).foldl storeReport initialGlobals).reportHistory.length ≤ 100) :=
  ⟨by decide,
    claim_C8_report_history_bounded initialGlobals emptyReport [emptyReport, emptyReport]
      (by decide)⟩

/-! ### Difficulty configuration, the bot and its mutable state -/

/-- One difficulty profile of `DIFFICULTY_CONFIG`. -/
structure Config where
  name : String
  minDepth : Nat
  maxDepth : Nat
  maxTime : Int
  useQuiescence : Bool
  quiescenceDepth : Nat
  useMoveOrdering : Bool
  useKillerMoves : Bool
  useHistoryHeuristic : Bool
  useNullMovePruning : Bool
  useLateMovereduction : Bool
  useOpeningBook : Bool
  useCenterControl : Bool
  usePawnStructure : Bool
  useKingSafety : Bool
  useDevelopment : Bool
  usePawnPushBonus : Bool
  blunderChance : ℚ
  mistakeChance : ℚ
  moveSelectionPool : Nat
  thinkingDelayLo : ℚ
  thinkingDelayHi : ℚ
deriving DecidableEq, Repr

/-- `DIFFICULTY_CONFIG[DIFFICULTY.ROOKIE]`. -/
def configROOKIE : Config :=
  { name := "Rookie", minDepth := 2, maxDepth := 4, maxTime := 15000,
    useQuiescence := false, quiescenceDepth := 0, useMoveOrdering := true,
    useKillerMoves := false, useHistoryHeuristic := false, useNullMovePruning := false,
    useLateMovereduction := false, useOpeningBook := false, useCenterControl := true,
    usePawnStructure := false, useKingSafety := false, useDevelopment := true,
    usePawnPushBonus := true, blunderChance := 1/10, mistakeChance := 15/100,
    moveSelectionPool := 6, thinkingDelayLo := 200, thinkingDelayHi := 500 }

/-- `DIFFICULTY_CONFIG[DIFFICULTY.CASUAL]`. -/
def configCASUAL : Config :=
  { name := "Casual", minDepth := 4, maxDepth := 6, maxTime := 15000,
    useQuiescence := true, quiescenceDepth := 3, useMoveOrdering := true,
    useKillerMoves := false, useHistoryHeuristic := false, useNullMovePruning := false,
    useLateMovereduction := false, useOpeningBook := true, useCenterControl := true,
    usePawnStructure := true, useKingSafety := false, useDevelopment := true,
    usePawnPushBonus := true, blunderChance := 3/100, mistakeChance := 8/100,
    moveSelectionPool := 4, thinkingDelayLo := 300, thinkingDelayHi := 800 }

/-- `DIFFICULTY_CONFIG[DIFFICULTY.STRATEGIC]`. -/
def configSTRATEGIC : Config :=
  { name := "Strategic", minDepth := 6, maxDepth := 8, maxTime := 15000,
    useQuiescence := true, quiescenceDepth := 4, useMoveOrdering := true,
    useKillerMoves := true, useHistoryHeuristic := true, useNullMovePruning := false,
    useLateMovereduction := true, useOpeningBook := true, useCenterControl := true,
    usePawnStructure := true, useKingSafety := true, useDevelopment := true,
    usePawnPushBonus := true, blunderChance := 0, mistakeChance := 2/100,
    moveSelectionPool := 3, thinkingDelayLo := 500, thinkingDelayHi := 1500 }

/-- `DIFFICULTY_CONFIG[DIFFICULTY.MASTER]`. -/
def configMASTER : Config :=
  { name := "Master", minDepth := 8, maxDepth := 10, maxTime := 15000,
    useQuiescence := true, quiescenceDepth := 6, useMoveOrdering := true,
    useKillerMoves := true, useHistoryHeuristic := true, useNullMovePruning := true,
    useLateMovereduction := true, useOpeningBook := true, useCenterControl := true,
    usePawnStructure := true, useKingSafety := true, useDevelopment := true,
    usePawnPushBonus := true, blunderChance := 0, mistakeChance := 0,
    moveSelectionPool := 1, thinkingDelayLo := 800, thinkingDelayHi := 2000 }

/-- One weighted candidate returned by the Polyglot book
(`{from, to, probability}`; `fromS`/`toS` rename the reserved words). -/
structure BookMove where
  fromS : String
  toS : String
  probability : ℚ
deriving DecidableEq, Repr

/-- External inputs of a decision: the wall clock (successive `Date.now()`
readings), the `Math.random()` stream, the loaded Polyglot book (`none`
models `polyglotBook === null`; otherwise a map from a FEN to its weighted
moves) and the ISO timestamp used by `DecisionReport.reset`. -/
structure Env where
  clock : Nat → Int
  random : Nat → ℚ
  book : Option (String → List BookMove)
  isoTime : String

/-- The evaluation context of `getEvaluationContext`. -/
structure EvalContext where
  phase : Nat
  endgameWeight : ℚ
  moveCount : Nat
deriving DecidableEq, Repr

/-- A static-evaluation heuristic: name (for report breakdowns) and score
function.  The bot's heuristic list is a parameter of the embedding: every
theorem below holds for an arbitrary list, in particular for the concrete
`MaterialHeuristic`/`CenterControlHeuristic`/… objects that
`initializeHeuristics` installs, whose numeric outputs none of the claims
constrain. -/
structure Heuristic where
  name : String
  score : Board → Color → EvalContext → ℚ

/-- The immutable part of a `BotPlayer`: its color, its board reference,
its difficulty configuration and its heuristic list. -/
structure Bot where
  color : Color
  board : Board
  config : Config
  heuristics : List Heuristic

/-- The mutable part of a `BotPlayer`, plus the consumption counters of the
two oracle streams: `tick` indexes `Env.clock` (one step per `Date.now()`
call), `rnd` indexes `Env.random` (one step per `Math.random()` call). -/
structure BotSt where
  positionCount : Nat
  maxDepthReached : Nat
  searchStartTime : Int
  killerMoves : List (Nat × List Killer)
  historyTable : List ((Nat × Nat) × Nat)
  openingBookMove : Option Move
  tick : Nat
  rnd : Nat
deriving Repr

/-! The decision report (`this.report`) is mutated only outside the search
(in `makeMove`, `lookupOpeningBookMove`, `applyImperfection` and
`storeReport`); it is threaded as a separate value through exactly those
functions, which makes "search does not touch the report" a typing fact. -/

/-- `Date.now()`. -/
def jsNow (env : Env) (st : BotSt) : Int × BotSt :=
  (env.clock st.tick, { st with tick := st.tick + 1 })

/-- `Math.random()`. -/
def jsRandom (env : Env) (st : BotSt) : ℚ × BotSt :=
  (env.random st.rnd, { st with rnd := st.rnd + 1 })

/-- `this.killerMoves.killerMoves[ply] || []`. -/
def killersAt (st : BotSt) (ply : Nat) : List Killer :=
  (st.killerMoves.lookup ply).getD []

/-- `KillerMoveOrdering.getScore(move, ply)`. -/
def killerGetScore (st : BotSt) (move : Move) (ply : Nat) : Int :=
  killerScoreGo (killersAt st ply) 0 move

/-- `KillerMoveOrdering.addKiller(move, ply)`. -/
def killerAdd (st : BotSt) (move : Move) (ply : Nat) : BotSt :=
  if jsTruthyNat move.capturedPiece then st
  else
    let killers := killersAt st ply
    let dominated := killers.any (fun k =>
      k.fromSquare == move.fromSquare && k.toSquare == move.toSquare)
    if dominated then st
    else
      let newList : List Killer :=
        { fromSquare := move.fromSquare, toSquare := move.toSquare } :: killers
      let newList := if 2 < newList.length then newList.dropLast else newList
      { st with killerMoves := assocSet st.killerMoves ply newList }

/-- `HistoryHeuristic.getScore(move)`. -/
def historyGetScore (st : BotSt) (move : Move) : Int :=
  ((st.historyTable.lookup (move.fromSquare, move.toSquare)).getD 0 : Nat)

/-- `HistoryHeuristic.update(move, depth)`. -/
def historyUpdate (st : BotSt) (move : Move) (depth : Nat) : BotSt :=
  if jsTruthyNat move.capturedPiece then st
  else
    let key := (move.fromSquare, move.toSquare)
    let old := (st.historyTable.lookup key).getD 0
    { st with historyTable := assocSet st.historyTable key (old + depth * depth) }

/-- `BotPlayer.getEvaluationContext(board)`. -/
def getEvaluationContext (b : Board) : EvalContext :=
  let phase := ([PIECES.KNIGHT, PIECES.BISHOP, PIECES.ROOK, PIECES.QUEEN]).foldl
    (fun phase pieceType =>
      let count := (b.piecesBB 0 pieceType).popCount + (b.piecesBB 1 pieceType).popCount
      phase + count * (if pieceType = PIECES.KNIGHT then 1
        else if pieceType = PIECES.BISHOP then 1
        else if pieceType = PIECES.ROOK then 2 else 4)) 0
  let maxPhase : ℚ := 24
  let endgameWeight := max 0 (1 - (phase : ℚ) / maxPhase)
  { phase := phase, endgameWeight := endgameWeight, moveCount := b.historyMoves.length }

/-- `BotPlayer.evaluate(board, color)`: sum of the enabled heuristics. -/
def evaluate (bot : Bot) (b : Board) (color : Color) : ℚ :=
  let context := getEvaluationContext b
  bot.heuristics.foldl (fun score h => score + h.score b color context) 0

/-- `BotPlayer.evaluateWithBreakdown(board, color)`. -/
def evaluateWithBreakdown (bot : Bot) (b : Board) (color : Color) : ℚ × List (String × ℚ) :=
  let context := getEvaluationContext b
  bot.heuristics.foldl (fun acc h =>
    let s := h.score b color context
    (acc.1 + s, acc.2 ++ [(h.name, s)])) (0, [])

/-- `BotPlayer.isOpeningBookMove(move)`. -/
def isOpeningBookMove (st : BotSt) (move : Move) : Bool :=
  match st.openingBookMove with
  | none => false
  | some bm => move.fromSquare == bm.fromSquare && move.toSquare == bm.toSquare

/-- The score `orderMoves` assigns to one candidate at a ply. -/
def orderScore (bot : Bot) (st : BotSt) (move : Move) (ply : Nat) : Int :=
  let score : Int := 0
  let score := if isOpeningBookMove st move then score + MOVE_PRIORITY.OPENING_BOOK else score
  let score := score + mvvlvaGetScore move
  -- `if (this.killerMoves)`: present exactly when the profile enables them
  let score := if bot.config.useKillerMoves then score + killerGetScore st move ply else score
  let score := if bot.config.useHistoryHeuristic then score + historyGetScore st move else score
  let score := if move.isPromotion then score + MOVE_PRIORITY.PROMOTION else score
  if bot.config.usePawnPushBonus ∧ move.piece = PIECES.PAWN then
    let pushBonus := evaluatePawnPush move bot.board bot.color
    if 0 < pushBonus then score + MOVE_PRIORITY.PAWN_DOUBLE_PUSH + pushBonus else score
  else score

/-- `BotPlayer.orderMoves(moves, ply)`. -/
def orderMoves (bot : Bot) (st : BotSt) (moves : List Move) (ply : Nat) : List Move :=
  let scored := moves.map (fun move => (orderScore bot st move ply, move))
  (sortByKeyDesc (fun p => ((p.1 : Int) : ℚ)) scored).map (fun s => s.2)

theorem orderMoves_perm (bot : Bot) (st : BotSt) (moves : List Move) (ply : Nat) :
    (orderMoves bot st moves ply).Perm moves := by
  have h1 := sortByKeyDesc_perm (fun p : Int × Move => ((p.1 : Int) : ℚ))
    (moves.map (fun move => (orderScore bot st move ply, move)))
  have h2 := h1.map (fun s : Int × Move => s.2)
  have h3 : List.map ((fun s : Int × Move => s.2) ∘ fun move => (orderScore bot st move ply, move))
      moves = moves := by
    have hcomp : ((fun s : Int × Move => s.2) ∘ fun move => (orderScore bot st move ply, move))
        = id := rfl
    rw [hcomp, List.map_id]
  rw [List.map_map, h3] at h2
  exact h2

/-! ### Quiescence search and the alpha–beta core -/

/-- The capture loop of `quiescence` with its alpha/beta breaks; `child` is
the recursive quiescence call at `depth + 1` with the opposite color. -/
def qLoop (child : Board → Sc → Sc → BotSt → Sc × BotSt) (isMax : Bool) (b : Board) :
    List Move → Sc → Sc → BotSt → Sc × BotSt
  | [], alpha, beta, st => (if isMax then alpha else beta, st)
  | capture :: rest, alpha, beta, st =>
    let sim := simulateMove capture.fromRC.1 capture.fromRC.2 capture.toRC.1 capture.toRC.2 b
    let res := child sim.1 alpha beta st
    if isMax then
      let alpha := Sc.jmax alpha res.1
      if Sc.jle beta alpha then (alpha, res.2)
      else qLoop child isMax b rest alpha beta res.2
    else
      let beta := Sc.jmin beta res.1
      if Sc.jle beta alpha then (beta, res.2)
      else qLoop child isMax b rest alpha beta res.2

/-- The tail of `quiescence` after the stand-pat bounds were applied:
filter the captures, return the stand-pat score if none, otherwise sort by
the SEE approximation `victim − attacker/10` and run the capture loop. -/
def qAfterStandPat (bot : Bot) (child : Board → Sc → Sc → BotSt → Sc × BotSt)
    (b : Board) (standPat alpha beta : Sc) (color : Color) (st : BotSt) : Sc × BotSt :=
  let moves := (getLegalMovesForColor b color).filter (fun m => jsTruthyNat m.capturedPiece)
  if moves.length = 0 then (standPat, st)
  else
    let moves := sortByKeyDesc (fun m : Move =>
      (PIECE_VALUES (m.capturedPiece.getD 0) : ℚ) - (PIECE_VALUES m.piece : ℚ) / 10) moves
    qLoop child (color = bot.color) b moves alpha beta st

/-- `BotPlayer.quiescence(board, alpha, beta, color, depth = 0)`. -/
def quiescence (bot : Bot) (b : Board) (alpha beta : Sc) (color : Color) (depth : Nat)
    (st : BotSt) : Sc × BotSt :=
  let st := { st with positionCount := st.positionCount + 1 }
  if hq : bot.config.quiescenceDepth ≤ depth then (Sc.fin (evaluate bot b color), st)
  else
    let standPat := Sc.fin (evaluate bot b color)
    if color = bot.color then
      if Sc.jle beta standPat then (beta, st)
      else
        qAfterStandPat bot
          (fun b2 a2 b3 s2 => quiescence bot b2 a2 b3 color.opp (depth + 1) s2)
          b standPat (Sc.jmax alpha standPat) beta color st
    else
      if Sc.jle standPat alpha then (alpha, st)
      else
        qAfterStandPat bot
          (fun b2 a2 b3 s2 => quiescence bot b2 a2 b3 color.opp (depth + 1) s2)
          b standPat alpha (Sc.jmin beta standPat) color st
termination_by bot.config.quiescenceDepth - depth
decreasing_by
  · omega
  · omega

/-- An alpha–beta result `{score, move, timeout}` (a missing `timeout` key
is falsy, i.e. `false`). -/
structure MMResult where
  score : Sc
  move : Option Move
  timeout : Bool
deriving DecidableEq, Repr

/-- The move loop of `minimax`: late-move reduction, timeout propagation,
alpha/beta updates, and killer/history bookkeeping on a cutoff.
`childFull`/`childReduced` are the recursive calls at `depth − 1` and
`depth − 2` (the latter for late-move reduction); `useLMR` is
`config.useLateMovereduction && depth >= 3`. -/
def mmLoop (bot : Bot)
    (childFull childReduced : Board → Sc → Sc → BotSt → MMResult × BotSt)
    (useLMR : Bool) (depth ply : Nat) (isMax : Bool) (b : Board) :
    List Move → Nat → Sc → Sc → Sc → Option Move → BotSt → MMResult × BotSt
  | [], _, _, _, bestScore, bestMove, st =>
    ({ score := bestScore, move := bestMove, timeout := false }, st)
  | move :: rest, i, alpha, beta, bestScore, bestMove, st =>
    let reduced := useLMR && decide (3 < i) &&
      ! jsTruthyNat move.capturedPiece && ! move.isPromotion
    let sim := simulateMove move.fromRC.1 move.fromRC.2 move.toRC.1 move.toRC.2 b
    let res := (if reduced then childReduced else childFull) sim.1 alpha beta st
    let st := res.2
    if res.1.timeout then
      ({ score := bestScore, move := bestMove, timeout := true }, st)
    else
      if isMax then
        let better := Sc.jlt bestScore res.1.score
        let bestScore := if better then res.1.score else bestScore
        let bestMove := if better then some move else bestMove
        let alpha := Sc.jmax alpha bestScore
        if Sc.jle beta alpha then
          let st := if bot.config.useKillerMoves then killerAdd st move ply else st
          let st := if bot.config.useHistoryHeuristic ∧ ¬ (jsTruthyNat move.capturedPiece = true)
            then historyUpdate st move depth else st
          ({ score := bestScore, move := bestMove, timeout := false }, st)
        else
          mmLoop bot childFull childReduced useLMR depth ply isMax b rest (i + 1)
            alpha beta bestScore bestMove st
      else
        let better := Sc.jlt res.1.score bestScore
        let bestScore := if better then res.1.score else bestScore
        let bestMove := if better then some move else bestMove
        let beta := Sc.jmin beta bestScore
        if Sc.jle beta alpha then
          let st := if bot.config.useKillerMoves then killerAdd st move ply else st
          let st := if bot.config.useHistoryHeuristic ∧ ¬ (jsTruthyNat move.capturedPiece = true)
            then historyUpdate st move depth else st
          ({ score := bestScore, move := bestMove, timeout := false }, st)
        else
          mmLoop bot childFull childReduced useLMR depth ply isMax b rest (i + 1)
            alpha beta bestScore bestMove st

/-- `BotPlayer.minimax(board, depth, alpha, beta, color, ply = 0)`. -/
def minimax (bot : Bot) (env : Env) (b : Board) (depth : Nat) (alpha beta : Sc)
    (color : Color) (ply : Nat) (st : BotSt) : MMResult × BotSt :=
  let st := { st with positionCount := st.positionCount + 1,
                      maxDepthReached := max st.maxDepthReached ply }
  let oppositeColor := color.opp
  let moves := getLegalMovesForColor b color
  -- terminal positions: checked before the timeout check
  if moves.length = 0 then
    if isInCheck b color then
      let mateScore : ℚ := 20000 - (ply : ℚ)
      (({ score := Sc.fin (if color = bot.color then -mateScore else mateScore),
          move := none, timeout := false } : MMResult), st)
    else (({ score := Sc.fin 0, move := none, timeout := false } : MMResult), st)
  else
    let nowRes := jsNow env st
    let st := nowRes.2
    if bot.config.maxTime < nowRes.1 - st.searchStartTime then
      if ply = 0 then
        -- at the root a move must be returned even on timeout
        let orderedMoves := orderMoves bot st moves 0
        match orderedMoves with
        | firstMove :: _ =>
          let sim := simulateMove firstMove.fromRC.1 firstMove.fromRC.2
            firstMove.toRC.1 firstMove.toRC.2 b
          (({ score := Sc.fin (evaluate bot sim.1 bot.color), move := some firstMove,
              timeout := true } : MMResult), st)
        | [] => -- unreachable: `moves` is non-empty and ordering permutes it
          (({ score := Sc.fin 0, move := none, timeout := true } : MMResult), st)
      else
        (({ score := Sc.fin (evaluate bot b bot.color), move := none,
            timeout := true } : MMResult), st)
    else
      if hd : depth = 0 then
        if bot.config.useQuiescence then
          let qr := quiescence bot b alpha beta color 0 st
          (({ score := qr.1, move := none, timeout := false } : MMResult), qr.2)
        else
          (({ score := Sc.fin (evaluate bot b color), move := none,
              timeout := false } : MMResult), st)
      else
        let orderedMoves := orderMoves bot st moves ply
        -- at the root the best move starts as the first ordered move
        let bestMove : Option Move := if ply = 0 then orderedMoves.head? else none
        let bestScore := if color = bot.color then Sc.ninf else Sc.inf
        let isMax := color = bot.color
        mmLoop bot
          (fun b2 a2 b3 s2 => minimax bot env b2 (depth - 1) a2 b3 oppositeColor (ply + 1) s2)
          (fun b2 a2 b3 s2 => minimax bot env b2 (depth - 2) a2 b3 oppositeColor (ply + 1) s2)
          (bot.config.useLateMovereduction && decide (3 ≤ depth)) depth ply isMax b
          orderedMoves 0 alpha beta bestScore bestMove st
termination_by depth
decreasing_by
  · omega
  · omega

/-- A score for the bot, seen from `color`'s perspective: the bot is the
maximizer, so a value `s` on the bot's scale reads as `s` for the bot and
as `−s` for its opponent. -/
def sidePerspective (bot : Bot) (color : Color) (s : ℚ) : ℚ :=
  if color = bot.color then s else -s

/-- Claim C4: at any search node whose side to move has no legal moves,
`minimax` returns, without searching any move (the result carries no move
and is produced before ordering or recursion), the score
`−(20000 − ply)` from the perspective of the side to move when that side
is in check (mate, ply-adjusted), and exactly `0` when it is not
(stalemate). -/
theorem claim_C4_minimax_terminal (bot : Bot) (env : Env) (b : Board) (depth : Nat)
    (alpha beta : Sc) (color : Color) (ply : Nat) (st : BotSt)
    (h : getLegalMovesForColor b color = []) :
    (minimax bot env b depth alpha beta color ply st).1 =
      { score := Sc.fin (if isInCheck b color
            then sidePerspective bot color (-(20000 - (ply : ℚ)))
            else 0),
        move := none, timeout := false } := by
  rw [minimax.eq_def]
  simp only [h, List.length_nil]
  by_cases hc : isInCheck b color
  · by_cases hb : color = bot.color
    · subst hb
      simp [hc, sidePerspective]
    · simp [hc, hb, sidePerspective]
  · simp [hc]

/-- Checkmate fixture: White king a1, Black queen b2, Black king c3, White
to move (a reachable mate pattern); used to witness C4. -/
def mateBoardGameState : GameState :=
  { active_color := Color.white, castling := 0, half_move_clock := 0,
    en_passant_sq := -1, full_move_count := 1, zobrist_key := 1 }

/-- The board of the checkmate fixture. -/
def mateBoard : Board :=
  { bbPieces :=
      [ [⟨1, 0⟩, emptyBB, emptyBB, emptyBB, emptyBB, emptyBB],
        [⟨262144, 0⟩, ⟨512, 0⟩, emptyBB, emptyBB, emptyBB, emptyBB] ],
    bbSide := [⟨1, 0⟩, ⟨262656, 0⟩],
    pieceList := (((List.replicate 64 PIECES.NONE).set 0 PIECES.KING).set 9 PIECES.QUEEN).set 18 PIECES.KING,
    gameState := mateBoardGameState,
    historyStates := [], historyMoves := [] }

/-- A bot/environment/state fixture for the search witnesses. -/
def witnessBot : Bot :=
  { color := Color.white, board := mateBoard, config := configMASTER, heuristics := [] }

/-- A constant-oracle environment. -/
def witnessEnv : Env :=
  { clock := fun _ => 0, random := fun _ => 0, book := none, isoTime := "" }

/-- A fresh mutable state. -/
def witnessSt : BotSt :=
  { positionCount := 0, maxDepthReached := 0, searchStartTime := 0, killerMoves := [],
    historyTable := [], openingBookMove := none, tick := 0, rnd := 0 }

set_option maxRecDepth 100000 in
/-- Witness for C4 on the concrete mate fixture. -/
theorem claim_C4_witness :
    getLegalMovesForColor mateBoard Color.white = [] ∧
    (minimax witnessBot witnessEnv mateBoard 4 Sc.ninf Sc.inf Color.white 0 witnessSt).1 =
      { score := Sc.fin (if isInCheck mateBoard Color.white
            then sidePerspective witnessBot Color.white (-(20000 - ((0 : Nat) : ℚ)))
            else 0),
        move := none, timeout := false } :=
  ⟨by decide,
    claim_C4_minimax_terminal witnessBot witnessEnv mateBoard 4 Sc.ninf Sc.inf
      Color.white 0 witnessSt (by decide)⟩


/-! ### `chessUtils.boardToFen` -/

/-- The FEN letter of a white piece (`['K','Q','R','B','N','P'][piece]`). -/
def fenWhiteChar (piece : Nat) : String :=
  ["K", "Q", "R", "B", "N", "P"].getD piece ""

/-- The FEN letter of a black piece (the same letter lower-cased). -/
def fenBlackChar (piece : Nat) : String :=
  ["k", "q", "r", "b", "n", "p"].getD piece ""

/-- One column step of `boardToFen`'s placement loop: the accumulator is
the row text built so far and the current run of empty squares. -/
def fenRowStep (b : Board) (row : Int) (acc : String × Nat) (col : Int) : String × Nat :=
  let square := rowColToIndex row col
  let piece := b.pieceAtI square
  if piece = PIECES.NONE then (acc.1, acc.2 + 1)
  else
    let pre := if 0 < acc.2 then acc.1 ++ toString acc.2 else acc.1
    if (b.sideBB 0).getBit square.toNat then (pre ++ fenWhiteChar piece, 0)
    else (pre ++ fenBlackChar piece, 0)

/-- One row of `boardToFen`'s placement field. -/
def fenRow (b : Board) (row : Int) : String :=
  let r := (List.range 8).foldl (fun acc c => fenRowStep b row acc (c : Int)) ("", 0)
  if 0 < r.2 then r.1 ++ toString r.2 else r.1

/-- `chessUtils.boardToFen(board)`. -/
def boardToFen (b : Board) : String :=
  let placement := String.intercalate "/" ((List.range 8).map (fun r => fenRow b (r : Int)))
  let active := if b.gameState.active_color = Color.white then "w" else "b"
  let castling :=
    (if b.gameState.castling &&& CASTLING.WHITE_KINGSIDE ≠ 0 then "K" else "") ++
    (if b.gameState.castling &&& CASTLING.WHITE_QUEENSIDE ≠ 0 then "Q" else "") ++
    (if b.gameState.castling &&& CASTLING.BLACK_KINGSIDE ≠ 0 then "k" else "") ++
    (if b.gameState.castling &&& CASTLING.BLACK_QUEENSIDE ≠ 0 then "q" else "")
  let castling := if castling = "" then "-" else castling
  let ep :=
    if b.gameState.en_passant_sq ≠ -1 then
      let rc := indexToRowCol b.gameState.en_passant_sq.toNat
      uiSquareName rc.1 rc.2
    else "-"
  placement ++ " " ++ active ++ " " ++ castling ++ " " ++ ep ++ " " ++
    toString b.gameState.half_move_clock ++ " " ++ toString b.gameState.full_move_count

/-! ### Opening-book lookup -/

/-- `this.report.openingBookAttempt.tried = true`. -/
def bookSetTried (rep : DecisionReport) : DecisionReport :=
  { rep with openingBookAttempt := { rep.openingBookAttempt with tried := true } }

/-- `openingBookAttempt.found = true; openingBookAttempt.move = "from-to"`. -/
def bookSetFoundMove (rep : DecisionReport) (bm : BookMove) : DecisionReport :=
  { rep with openingBookAttempt :=
      { rep.openingBookAttempt with found := true, move := some (bm.fromS ++ "-" ++ bm.toS) } }

/-- `openingBookAttempt.integratedIntoSearch = true`. -/
def bookSetIntegrated (rep : DecisionReport) : DecisionReport :=
  { rep with openingBookAttempt := { rep.openingBookAttempt with integratedIntoSearch := true } }

/-- The `for (const bookMove of bookMoves)` loop of `lookupOpeningBookMove`:
decrement the random threshold by each candidate's probability and, once it
is `≤ 0`, return the first candidate that matches a legal move by its
algebraic from/to squares; keep scanning if none matches. -/
def bookScanGo (moves : List Move) : List BookMove → ℚ → Option (Move × BookMove)
  | [], _ => none
  | bm :: rest, r =>
    let r := r - bm.probability
    if r ≤ 0 then
      match moves.find? (fun m =>
        decide (uiSquareName m.fromRC.1 m.fromRC.2 = bm.fromS) &&
        decide (uiSquareName m.toRC.1 m.toRC.2 = bm.toS)) with
      | some lm => some (lm, bm)
      | none => bookScanGo moves rest r
    else bookScanGo moves rest r

/-- `BotPlayer.lookupOpeningBookMove(board, moves)`.  `env.book = none`
models a missing `polyglotBook`; the book itself is a total map from a FEN
to the (possibly empty) candidate list, so the silently-caught exception
path does not arise. -/
def lookupOpeningBookMove (bot : Bot) (env : Env) (b : Board) (moves : List Move)
    (st : BotSt) (rep : DecisionReport) : Option Move × BotSt × DecisionReport :=
  let moveNumber := b.historyMoves.length / 2 + 1
  if MAX_OPENING_BOOK_MOVE < moveNumber then (none, st, rep)
  else if bot.config.useOpeningBook = false then (none, st, rep)
  else
    match env.book with
    | none => (none, st, rep)
    | some book =>
      let rep := bookSetTried rep
      let bookMoves := book (boardToFen b)
      if bookMoves.length = 0 then (none, st, rep)
      else
        let totalProb := bookMoves.foldl (fun sum m => sum + m.probability) 0
        let rr := jsRandom env st
        let st := rr.2
        match bookScanGo moves bookMoves (rr.1 * totalProb) with
        | some found => (some found.1, st, bookSetFoundMove rep found.2)
        | none => (none, st, rep)

/-! ### Imperfection -/

/-- `Math.round(q)` (JS rounds half away from zero upward: `floor(q + 1/2)`). -/
def jsRound (q : ℚ) : Int := ⌊q + 1 / 2⌋

/-- `report.imperfectionApplied = {type: 'blunder', originalMove: ...}`. -/
def impBlunder (rep : DecisionReport) (bestMove : Move) : DecisionReport :=
  { rep with imperfectionApplied :=
      { itype := some "blunder", originalMove := formatMove (some bestMove) } }

/-- `report.imperfectionApplied = {type: 'suboptimal', originalMove: ...}`. -/
def impSuboptimal (rep : DecisionReport) (bestMove : Move) : DecisionReport :=
  { rep with imperfectionApplied :=
      { itype := some "suboptimal", originalMove := formatMove (some bestMove) } }

/-- `BotPlayer.applyImperfection(moves, bestMove)`.  `Math.random() ∈ [0, 1)`
keeps both computed indices in range, so the `getD` defaults are never
taken on real oracle streams. -/
def applyImperfection (bot : Bot) (env : Env) (moves : List Move) (bestMove : Move)
    (st : BotSt) (rep : DecisionReport) : Move × BotSt × DecisionReport :=
  if moves.length ≤ 1 then (bestMove, st, rep)
  else
    let r1 := jsRandom env st
    let st := r1.2
    if r1.1 < bot.config.blunderChance then
      let r2 := jsRandom env st
      let st := r2.2
      let randomMove := moves.getD (Int.toNat ⌊r2.1 * (moves.length : ℚ)⌋) bestMove
      (randomMove, st, impBlunder rep bestMove)
    else
      let r3 := jsRandom env st
      let st := r3.2
      if r3.1 < bot.config.mistakeChance then
        let poolSize := min bot.config.moveSelectionPool moves.length
        let rankedMoves := moves.map (fun move =>
          (move, evaluate bot
            (simulateMove move.fromRC.1 move.fromRC.2 move.toRC.1 move.toRC.2 bot.board).1
            bot.color))
        let rankedMoves := sortByKeyDesc (fun p : Move × ℚ => p.2) rankedMoves
        let r4 := jsRandom env st
        let st := r4.2
        let selectedIdx := Int.toNat ⌊r4.1 * (poolSize : ℚ)⌋
        if 0 < selectedIdx then
          ((rankedMoves.getD selectedIdx (bestMove, 0)).1, st, impSuboptimal rep bestMove)
        else (bestMove, st, rep)
      else (bestMove, st, rep)

/-! ### Iterative deepening -/

/-- The `{score, move}` record returned by `iterativeDeepening`. -/
structure SearchResult where
  score : Sc
  move : Option Move
deriving DecidableEq, Repr

/-- The `for (depth = minDepth; depth <= maxDepth; depth++)` loop of
`iterativeDeepening`; the fuel is the remaining number of iterations, so
the loop also stops after `maxDepth` is reached. -/
def idLoop (bot : Bot) (env : Env) (b : Board) :
    Nat → Nat → Option Move → Sc → BotSt → Option Move × Sc × BotSt
  | 0, _, bestMove, bestScore, st => (bestMove, bestScore, st)
  | fuel + 1, depth, bestMove, bestScore, st =>
    let nowRes := jsNow env st
    let st := nowRes.2
    if (bot.config.maxTime : ℚ) * (7 / 10) < ((nowRes.1 - st.searchStartTime : Int) : ℚ) then
      (bestMove, bestScore, st)
    else
      let res := minimax bot env b depth Sc.ninf Sc.inf bot.color 0 st
      let st := res.2
      match res.1.move with
      | some m =>
        if res.1.score.absGt 15000 then (some m, res.1.score, st)
        else if res.1.timeout then (some m, res.1.score, st)
        else idLoop bot env b fuel (depth + 1) (some m) res.1.score st
      | none =>
        if res.1.timeout then (bestMove, bestScore, st)
        else idLoop bot env b fuel (depth + 1) bestMove bestScore st

/-- `BotPlayer.iterativeDeepening(board)`. -/
def iterativeDeepening (bot : Bot) (env : Env) (b : Board) (st : BotSt) :
    SearchResult × BotSt :=
  let legalMoves := getLegalMovesForColor b bot.color
  if legalMoves.length = 0 then ({ score := Sc.fin 0, move := none }, st)
  else
    let bestScore := if bot.color = Color.white then Sc.ninf else Sc.inf
    let loopRes := idLoop bot env b (bot.config.maxDepth + 1 - bot.config.minDepth)
      bot.config.minDepth none bestScore st
    let st := loopRes.2.2
    match loopRes.1 with
    | some m => ({ score := loopRes.2.1, move := some m }, st)
    | none =>
      match orderMoves bot st legalMoves 0 with
      | bm :: _ =>
        let sim := simulateMove bm.fromRC.1 bm.fromRC.2 bm.toRC.1 bm.toRC.2 b
        ({ score := Sc.fin (evaluate bot sim.1 bot.color), move := some bm }, st)
      | [] => ({ score := loopRes.2.1, move := none }, st)

/-! ### `BotPlayer.makeMove` -/

/-- The `{from, to}` record returned by `makeMove`. -/
structure FromTo where
  fromRC : Int × Int
  toRC : Int × Int
deriving DecidableEq, Repr

/-- The start of `makeMove`: reset the report, fill its header fields and
draw the thinking-delay random number (the delay's duration has no other
effect on the decision). -/
def makeMoveIntroSt (bot : Bot) (env : Env) (st0 : BotSt) : BotSt × DecisionReport :=
  let rep :=
    { reportReset env.isoTime with
        botColor := some bot.color,
        difficulty := some bot.config.name,
        fen := some (boardToFen bot.board),
        moveNumber := bot.board.historyMoves.length / 2 + 1 }
  ((jsRandom env st0).2, rep)

/-- The search preparation of `makeMove`: opening-book lookup (kept only
for move-ordering priority), search-state reset and the per-move static
evaluations recorded in the report. -/
def makeMoveSearchSetup (bot : Bot) (env : Env) (moves : List Move)
    (st : BotSt) (rep : DecisionReport) : BotSt × DecisionReport :=
  let bookRes := lookupOpeningBookMove bot env bot.board moves st rep
  let st := bookRes.2.1
  let rep := bookRes.2.2
  let stRep : BotSt × DecisionReport :=
    match bookRes.1 with
    | some bm => ({ st with openingBookMove := some bm }, bookSetIntegrated rep)
    | none => ({ st with openingBookMove := none }, rep)
  let st := stRep.1
  let rep := stRep.2
  let nowRes := jsNow env st
  let st :=
    { nowRes.2 with
        positionCount := 0, maxDepthReached := 0, searchStartTime := nowRes.1 }
  let st := if bot.config.useKillerMoves then { st with killerMoves := [] } else st
  let st := if bot.config.useHistoryHeuristic then { st with historyTable := [] } else st
  let rep := moves.foldl (fun rep move =>
    let sim := simulateMove move.fromRC.1 move.fromRC.2 move.toRC.1 move.toRC.2 bot.board
    let ev := evaluateWithBreakdown bot sim.1 bot.color
    { rep with moveEvaluations := rep.moveEvaluations ++
        [{ move := formatMove (some move), score := ev.1, breakdown := ev.2 }] }) rep
  (st, rep)

/-- The end of `makeMove` once a move was selected: record the final move,
store the report, clear the opening-book move and return `{from, to}`. -/
def makeMoveFinish (g : Globals) (sm : Move) (st : BotSt) (rep : DecisionReport) :
    Option FromTo × BotSt × Globals :=
  let rep := { rep with finalMove := formatMove (some sm) }
  let g := storeReport g rep
  let st := { st with openingBookMove := none }
  (some { fromRC := sm.fromRC, toRC := sm.toRC }, st, g)

/-- The search branch of `makeMove` (taken when there are at least two
legal moves): search preparation, iterative deepening, search statistics,
the imperfection gate and the final-move fallback. -/
def makeMoveSearchPhase (bot : Bot) (env : Env) (g : Globals) (moves : List Move)
    (st : BotSt) (rep : DecisionReport) : Option FromTo × BotSt × Globals :=
  let setup := makeMoveSearchSetup bot env moves st rep
  let st := setup.1
  let rep := setup.2
  let result := iterativeDeepening bot env bot.board st
  let st := result.2
  let nowRes := jsNow env st
  let st := nowRes.2
  let timeElapsed := nowRes.1 - st.searchStartTime
  let stats : SearchStats :=
    { positionsEvaluated := st.positionCount,
      maxDepthReached := st.maxDepthReached,
      timeSpentMs := timeElapsed,
      nodesPerSecond :=
        if 0 < timeElapsed then jsRound ((st.positionCount : ℚ) / ((timeElapsed : ℚ) / 1000))
        else 0 }
  let rep := { rep with searchStats := stats }
  let rep :=
    { rep with
        selectedMove := formatMove result.1.move,
        selectedMoveScore := some result.1.score }
  let afterImp : Option Move × BotSt × DecisionReport :=
    match result.1.move with
    | some sm =>
      if 0 < bot.config.blunderChance ∨ 0 < bot.config.mistakeChance then
        let ap := applyImperfection bot env moves sm st rep
        (some ap.1, ap.2.1, ap.2.2)
      else (some sm, st, rep)
    | none => (none, st, rep)
  let st := afterImp.2.1
  let rep := afterImp.2.2
  match afterImp.1 with
  | some sm => makeMoveFinish g sm st rep
  | none =>
    match orderMoves bot st moves 0 with
    | sm :: _ => makeMoveFinish g sm st rep
    | [] => (none, st, g)

/-- `BotPlayer.makeMove()`: the decision entry point.  `g` is the
module-level report state; the returned triple is the JS return value, the
bot's mutable state and the updated module state. -/
def botMakeMove (bot : Bot) (env : Env) (g : Globals) (st0 : BotSt) :
    Option FromTo × BotSt × Globals :=
  let intro := makeMoveIntroSt bot env st0
  let st := intro.1
  let moves := getLegalMovesForColor bot.board bot.color
  let rep := { intro.2 with legalMoves := moves.map (fun m => formatMove (some m)) }
  if moves.length = 0 then (none, st, g)
  else if moves.length = 1 then
    match moves with
    | m0 :: _ =>
      let rep :=
        { rep with selectedMove := formatMove (some m0), finalMove := formatMove (some m0) }
      (some { fromRC := m0.fromRC, toRC := m0.toRC }, st, storeReport g rep)
    | [] => (none, st, g)
  else makeMoveSearchPhase bot env g moves st rep

/-- The bot state in which `makeMove` starts its iterative-deepening
search: the state after the thinking-delay draw, the book lookup and the
search-state reset, with the report as filled up to that point. -/
def searchEntrySt (bot : Bot) (env : Env) (st0 : BotSt) : BotSt :=
  (makeMoveSearchSetup bot env (getLegalMovesForColor bot.board bot.color)
    (makeMoveIntroSt bot env st0).1
    { (makeMoveIntroSt bot env st0).2 with
        legalMoves := (getLegalMovesForColor bot.board bot.color).map
          (fun m => formatMove (some m)) }).1


/-! ### C3: a legal move is always returned -/

theorem getD_mem_of_mem {α : Type} (l : List α) (n : Nat) (d : α) (hd : d ∈ l) :
    l.getD n d ∈ l := by
  by_cases h : n < l.length
  · rw [List.getD_eq_getElem l d h]
    exact List.getElem_mem h
  · rw [List.getD_eq_default l d (Nat.le_of_not_lt h)]
    exact hd

/-- Any move carried out of the alpha–beta loop is either the incoming
best move or one of the moves of the list being searched. -/
theorem mmLoop_move_mem (bot : Bot)
    (cf cr : Board → Sc → Sc → BotSt → MMResult × BotSt)
    (useLMR : Bool) (depth ply : Nat) (isMax : Bool) (b : Board) (S : List Move) :
    ∀ (l : List Move), (∀ x ∈ l, x ∈ S) →
      ∀ (i : Nat) (alpha beta bestScore : Sc) (bestMove : Option Move) (st : BotSt),
        (∀ x, bestMove = some x → x ∈ S) →
        ∀ m,
          (mmLoop bot cf cr useLMR depth ply isMax b l i alpha beta bestScore
            bestMove st).1.move = some m → m ∈ S := by
  intro l
  induction l with
  | nil =>
    intro _ i alpha beta bestScore bestMove st hbest m hm
    simp only [mmLoop] at hm
    exact hbest m hm
  | cons mv rest ih =>
    intro hl i alpha beta bestScore bestMove st hbest m hm
    have hmv : mv ∈ S := hl mv (List.mem_cons_self mv rest)
    have hrest : ∀ x ∈ rest, x ∈ S := fun x hx => hl x (List.mem_cons_of_mem mv hx)
    have hupd : ∀ (c : Prop) (inst : Decidable c),
        ∀ y, (if c then some mv else bestMove) = some y → y ∈ S := by
      intro c inst y hy
      split at hy
      · cases hy
        exact hmv
      · exact hbest y hy
    simp only [mmLoop] at hm
    repeat' split at hm
    all_goals
      first
        | exact hbest m hm
        | exact hupd _ _ m hm
        | exact ih hrest _ _ _ _ _ _ (hupd _ _) m hm
        | exact ih hrest _ _ _ _ _ _ hbest m hm
        | (simp only [Option.some.injEq] at hm; subst hm; exact hmv)
        | exact ih hrest _ _ _ _ _ _
            (fun y hy => by simp only [Option.some.injEq] at hy; subst hy; exact hmv) m hm

set_option maxRecDepth 8000 in
/-- A move returned from the root call of `minimax` is one of the legal
moves of the searched position. -/
theorem minimax_root_move_mem (bot : Bot) (env : Env) (b : Board) (depth : Nat)
    (alpha beta : Sc) (color : Color) (st : BotSt) :
    ∀ m, (minimax bot env b depth alpha beta color 0 st).1.move = some m →
      m ∈ getLegalMovesForColor b color := by
  intro m hm
  rw [minimax.eq_def] at hm
  simp only [] at hm
  repeat' split at hm
  all_goals
    first
      | exact Option.noConfusion hm
      | (rename_i fm tail horder
         simp only [Option.some.injEq] at hm
         subst hm
         exact (orderMoves_perm bot _ _ 0).mem_iff.mp
           (by rw [horder]; exact List.mem_cons_self fm tail))
      | (refine mmLoop_move_mem bot _ _ _ _ _ _ _ (getLegalMovesForColor b color) _
           (fun x hx => (orderMoves_perm bot _ _ _).mem_iff.mp hx) _ _ _ _ _ _ ?_ m hm
         intro x hx
         exact (orderMoves_perm bot _ _ _).mem_iff.mp
           (List.mem_of_mem_head? (Option.mem_def.mpr hx)))
      | exact mmLoop_move_mem bot _ _ _ _ _ _ _ (getLegalMovesForColor b color) _
          (fun x hx => (orderMoves_perm bot _ _ _).mem_iff.mp hx) _ _ _ _ _ _
          (fun x hx => Option.noConfusion hx) m hm

/-- The move accumulated over the iterative-deepening loop stays legal. -/
theorem idLoop_move_mem (bot : Bot) (env : Env) (b : Board) :
    ∀ (fuel depth : Nat) (bestMove : Option Move) (bestScore : Sc) (st : BotSt),
      (∀ x, bestMove = some x → x ∈ getLegalMovesForColor b bot.color) →
      ∀ m, (idLoop bot env b fuel depth bestMove bestScore st).1 = some m →
        m ∈ getLegalMovesForColor b bot.color := by
  intro fuel
  induction fuel with
  | zero =>
    intro depth bestMove bestScore st hbest m hm
    simp only [idLoop] at hm
    exact hbest m hm
  | succ fuel ih =>
    intro depth bestMove bestScore st hbest m hm
    simp only [idLoop] at hm
    split at hm
    · exact hbest m hm
    · split at hm
      · -- the depth-`depth` search returned a move
        rename_i m1 hres
        have hm1 : m1 ∈ getLegalMovesForColor b bot.color :=
          minimax_root_move_mem bot env b _ _ _ bot.color _ m1 hres
        split at hm
        · simp only [Option.some.injEq] at hm
          subst hm
          exact hm1
        · split at hm
          · simp only [Option.some.injEq] at hm
            subst hm
            exact hm1
          · exact ih _ _ _ _
              (fun x hx => by simp only [Option.some.injEq] at hx; subst hx; exact hm1) m hm
      · split at hm
        · exact hbest m hm
        · exact ih _ _ _ _ hbest m hm

/-- If the position has a legal move, `iterativeDeepening` returns one of
the legal moves (through the search or through its explicit fallback). -/
theorem iterativeDeepening_some_mem (bot : Bot) (env : Env) (b : Board) (st : BotSt)
    (h : getLegalMovesForColor b bot.color ≠ []) :
    ∃ m, (iterativeDeepening bot env b st).1.move = some m ∧
      m ∈ getLegalMovesForColor b bot.color := by
  have h0 : ¬ (getLegalMovesForColor b bot.color).length = 0 := by
    simpa [List.length_eq_zero] using h
  unfold iterativeDeepening
  simp only [h0, if_false]
  rcases hl : (idLoop bot env b (bot.config.maxDepth + 1 - bot.config.minDepth)
      bot.config.minDepth none (if bot.color = Color.white then Sc.ninf else Sc.inf) st).1
    with _ | m1
  · rcases horder : orderMoves bot
        ((idLoop bot env b (bot.config.maxDepth + 1 - bot.config.minDepth)
          bot.config.minDepth none (if bot.color = Color.white then Sc.ninf else Sc.inf)
          st).2.2)
        (getLegalMovesForColor b bot.color) 0 with _ | ⟨bm, tail⟩
    · exfalso
      have hp := (orderMoves_perm bot
        ((idLoop bot env b (bot.config.maxDepth + 1 - bot.config.minDepth)
          bot.config.minDepth none (if bot.color = Color.white then Sc.ninf else Sc.inf)
          st).2.2) (getLegalMovesForColor b bot.color) 0).length_eq
      rw [horder] at hp
      exact h0 hp.symm
    · refine ⟨bm, rfl, ?_⟩
      exact (orderMoves_perm bot
        ((idLoop bot env b (bot.config.maxDepth + 1 - bot.config.minDepth)
          bot.config.minDepth none (if bot.color = Color.white then Sc.ninf else Sc.inf)
          st).2.2) (getLegalMovesForColor b bot.color) 0).mem_iff.mp
        (by rw [horder]; exact List.mem_cons_self bm tail)
  · exact ⟨m1, rfl, idLoop_move_mem bot env b _ _ _ _ _ (fun x hx => Option.noConfusion hx) m1 hl⟩

/-- The first component of any entry picked from a ranked
`(move, score)` list stays inside the original move list. -/
theorem pairs_getD_fst_mem (moves : List Move) (l : List (Move × ℚ))
    (hl : ∀ p ∈ l, p.1 ∈ moves) (bestMove : Move) (q : ℚ) (n : Nat)
    (hbest : bestMove ∈ moves) : (l.getD n (bestMove, q)).1 ∈ moves := by
  by_cases hn : n < l.length
  · rw [List.getD_eq_getElem _ _ hn]
    exact hl _ (List.getElem_mem hn)
  · rw [List.getD_eq_default _ _ (Nat.le_of_not_lt hn)]
    exact hbest

/-- `applyImperfection` replies with one of the proposed moves whenever
the proposed best move is one of them. -/
theorem applyImperfection_mem (bot : Bot) (env : Env) (moves : List Move)
    (bestMove : Move) (st : BotSt) (rep : DecisionReport) (hbest : bestMove ∈ moves) :
    (applyImperfection bot env moves bestMove st rep).1 ∈ moves := by
  simp only [applyImperfection]
  split
  · exact hbest
  · split
    · exact getD_mem_of_mem _ _ _ hbest
    · split
      · split
        · refine pairs_getD_fst_mem moves _ ?_ bestMove 0 _ hbest
          intro p hp
          rcases List.mem_map.mp ((sortByKeyDesc_perm _ _).mem_iff.mp hp) with ⟨a, ha, hfa⟩
          rw [← hfa]
          exact ha
        · exact hbest
      · exact hbest


/-- If the position has legal moves, the search phase of `makeMove`
returns one of them. -/
theorem makeMoveSearchPhase_mem (bot : Bot) (env : Env) (g : Globals)
    (st : BotSt) (rep : DecisionReport)
    (hne : getLegalMovesForColor bot.board bot.color ≠ []) :
    ∃ m ∈ getLegalMovesForColor bot.board bot.color,
      (makeMoveSearchPhase bot env g (getLegalMovesForColor bot.board bot.color)
        st rep).1 = some { fromRC := m.fromRC, toRC := m.toRC } := by
  obtain ⟨m1, hs, hmem⟩ := iterativeDeepening_some_mem bot env bot.board
    ((makeMoveSearchSetup bot env (getLegalMovesForColor bot.board bot.color) st rep).1) hne
  simp only [makeMoveSearchPhase]
  rw [hs]
  simp only []
  by_cases hg : 0 < bot.config.blunderChance ∨ 0 < bot.config.mistakeChance
  · rw [if_pos hg]
    simp only []
    exact ⟨_, applyImperfection_mem bot env _ m1 _ _ hmem, rfl⟩
  · rw [if_neg hg]
    simp only []
    exact ⟨m1, hmem, rfl⟩

/-- Claim C3: `makeMove` returns a move exactly when the bot's color has a
legal move, and any returned move is (the from/to record of) one of those
legal moves — also under timeouts, thanks to the root initialization and
the iterative-deepening fallback. -/
theorem claim_C3_makeMove_returns_legal_move (bot : Bot) (env : Env) (g : Globals)
    (st0 : BotSt) :
    ((botMakeMove bot env g st0).1 = none ↔
      getLegalMovesForColor bot.board bot.color = []) ∧
    ∀ ft, (botMakeMove bot env g st0).1 = some ft →
      ∃ m ∈ getLegalMovesForColor bot.board bot.color,
        ft = { fromRC := m.fromRC, toRC := m.toRC } := by
  have key : getLegalMovesForColor bot.board bot.color ≠ [] →
      ∃ m ∈ getLegalMovesForColor bot.board bot.color,
        (botMakeMove bot env g st0).1 = some { fromRC := m.fromRC, toRC := m.toRC } := by
    intro hne
    have h0 : ¬ (getLegalMovesForColor bot.board bot.color).length = 0 := by
      simpa [List.length_eq_zero] using hne
    by_cases h1 : (getLegalMovesForColor bot.board bot.color).length = 1
    · rcases hmv : getLegalMovesForColor bot.board bot.color with _ | ⟨m0, rest⟩
      · exact absurd hmv hne
      · rw [hmv] at h0 h1
        refine ⟨m0, List.mem_cons_self m0 rest, ?_⟩
        simp only [botMakeMove]
        rw [hmv, if_neg h0, if_pos h1]
    · obtain ⟨m, hm, heq⟩ := makeMoveSearchPhase_mem bot env g
        (makeMoveIntroSt bot env st0).1
        { (makeMoveIntroSt bot env st0).2 with
            legalMoves := (getLegalMovesForColor bot.board bot.color).map
              (fun m => formatMove (some m)) } hne
      refine ⟨m, hm, ?_⟩
      simp only [botMakeMove]
      rw [if_neg h0, if_neg h1]
      exact heq
  constructor
  · constructor
    · intro hnone
      by_contra hne
      obtain ⟨m, _, heq⟩ := key hne
      rw [heq] at hnone
      exact Option.noConfusion hnone
    · intro hempty
      have h0 : (getLegalMovesForColor bot.board bot.color).length = 0 := by
        rw [hempty]
        rfl
      simp only [botMakeMove]
      rw [if_pos h0]
  · intro ft hft
    by_cases hne : getLegalMovesForColor bot.board bot.color = []
    · have h0 : (getLegalMovesForColor bot.board bot.color).length = 0 := by
        rw [hne]
        rfl
      simp only [botMakeMove] at hft
      rw [if_pos h0] at hft
      exact Option.noConfusion hft
    · obtain ⟨m, hm, heq⟩ := key hne
      rw [heq] at hft
      exact ⟨m, hm, by injection hft with h; exact h.symm⟩

/-- Two-kings fixture: White king a1, Black king h8, White to move; White
has three legal moves. -/
def twoKingsBoard : Board :=
  { bbPieces :=
      [ [⟨1, 0⟩, emptyBB, emptyBB, emptyBB, emptyBB, emptyBB],
        [⟨0, 2147483648⟩, emptyBB, emptyBB, emptyBB, emptyBB, emptyBB] ],
    bbSide := [⟨1, 0⟩, ⟨0, 2147483648⟩],
    pieceList := ((List.replicate 64 PIECES.NONE).set 0 PIECES.KING).set 63 PIECES.KING,
    gameState := mateBoardGameState,
    historyStates := [], historyMoves := [] }

/-- A Master-tier bot on the two-kings fixture. -/
def witnessBot2 : Bot :=
  { color := Color.white, board := twoKingsBoard, config := configMASTER, heuristics := [] }

set_option maxRecDepth 100000 in
/-- Witness for C3: on the checkmated fixture the entry point returns
`null`, by the claim theorem applied at a concrete input. -/
theorem claim_C3_witness :
    getLegalMovesForColor mateBoard Color.white = [] ∧
    (botMakeMove witnessBot witnessEnv initialGlobals witnessSt).1 = none :=
  ⟨by decide,
    (claim_C3_makeMove_returns_legal_move witnessBot witnessEnv initialGlobals
      witnessSt).1.mpr (by decide)⟩

/-! ### C6: the imperfection gate is inert at zero chances -/

/-- `lookupOpeningBookMove` never touches `report.imperfectionApplied`. -/
theorem lookupOpeningBookMove_imperfection (bot : Bot) (env : Env) (b : Board)
    (moves : List Move) (st : BotSt) (rep : DecisionReport) :
    (lookupOpeningBookMove bot env b moves st rep).2.2.imperfectionApplied =
      rep.imperfectionApplied := by
  simp only [lookupOpeningBookMove]
  repeat' split
  all_goals rfl

/-- A report fold that only appends move evaluations never touches
`imperfectionApplied`. -/
theorem foldl_addEval_imperfection (f : DecisionReport → Move → DecisionReport)
    (hf : ∀ r mv, (f r mv).imperfectionApplied = r.imperfectionApplied) :
    ∀ (l : List Move) (r : DecisionReport),
      (l.foldl f r).imperfectionApplied = r.imperfectionApplied := by
  intro l
  induction l with
  | nil => intro r; rfl
  | cons a t ih =>
    intro r
    rw [List.foldl_cons, ih, hf]

/-- The search preparation of `makeMove` never touches
`report.imperfectionApplied`. -/
theorem makeMoveSearchSetup_imperfection (bot : Bot) (env : Env) (moves : List Move)
    (st : BotSt) (rep : DecisionReport) :
    (makeMoveSearchSetup bot env moves st rep).2.imperfectionApplied =
      rep.imperfectionApplied := by
  simp only [makeMoveSearchSetup]
  rw [foldl_addEval_imperfection
    (fun rep move =>
      { rep with moveEvaluations := rep.moveEvaluations ++
          [{ move := formatMove (some move),
             score := (evaluateWithBreakdown bot
               (simulateMove move.fromRC.1 move.fromRC.2 move.toRC.1 move.toRC.2
                 bot.board).1 bot.color).1,
             breakdown := (evaluateWithBreakdown bot
               (simulateMove move.fromRC.1 move.fromRC.2 move.toRC.1 move.toRC.2
                 bot.board).1 bot.color).2 }] })
    (fun r mv => rfl)]
  split
  · exact lookupOpeningBookMove_imperfection bot env bot.board moves st rep
  · exact lookupOpeningBookMove_imperfection bot env bot.board moves st rep

/-- Claim C6: with `blunderChance = 0` and `mistakeChance = 0` (the Master
tier) and at least two legal moves, `makeMove` returns exactly the best
move of `iterativeDeepening`, and the stored report's imperfection type
stays `null`. -/
theorem claim_C6_zero_imperfection_is_identity (bot : Bot) (env : Env) (g : Globals)
    (st0 : BotSt) (hb : bot.config.blunderChance = 0) (hm : bot.config.mistakeChance = 0)
    (h2 : 2 ≤ (getLegalMovesForColor bot.board bot.color).length) :
    ∃ m,
      (iterativeDeepening bot env bot.board (searchEntrySt bot env st0)).1.move = some m ∧
      (botMakeMove bot env g st0).1 = some { fromRC := m.fromRC, toRC := m.toRC } ∧
      ∃ rep, (botMakeMove bot env g st0).2.2.latestReport = some rep ∧
        rep.imperfectionApplied.itype = none := by
  have hne : getLegalMovesForColor bot.board bot.color ≠ [] := by
    intro hx
    rw [hx] at h2
    simp at h2
  have h0 : ¬ (getLegalMovesForColor bot.board bot.color).length = 0 := by omega
  have h1 : ¬ (getLegalMovesForColor bot.board bot.color).length = 1 := by omega
  have hgate : ¬ (0 < bot.config.blunderChance ∨ 0 < bot.config.mistakeChance) := by
    rw [hb, hm]
    simp
  obtain ⟨m1, hs, -⟩ := iterativeDeepening_some_mem bot env bot.board
    (searchEntrySt bot env st0) hne
  have hphase : botMakeMove bot env g st0 =
      makeMoveSearchPhase bot env g (getLegalMovesForColor bot.board bot.color)
        (makeMoveIntroSt bot env st0).1
        { (makeMoveIntroSt bot env st0).2 with
            legalMoves := (getLegalMovesForColor bot.board bot.color).map
              (fun m => formatMove (some m)) } := by
    simp only [botMakeMove]
    rw [if_neg h0, if_neg h1]
  refine ⟨m1, hs, ?_, ?_⟩
  · rw [hphase]
    unfold searchEntrySt at hs
    simp only [makeMoveSearchPhase]
    rw [hs]
    simp only []
    rw [if_neg hgate]
    rfl
  · rw [hphase]
    unfold searchEntrySt at hs
    simp only [makeMoveSearchPhase]
    rw [hs]
    simp only []
    rw [if_neg hgate]
    refine ⟨_, rfl, ?_⟩
    rw [makeMoveSearchSetup_imperfection bot env (getLegalMovesForColor bot.board bot.color)
      (makeMoveIntroSt bot env st0).1
      { (makeMoveIntroSt bot env st0).2 with
          legalMoves := (getLegalMovesForColor bot.board bot.color).map
            (fun m => formatMove (some m)) }]
    rfl

set_option maxRecDepth 100000 in
/-- Witness for C6 at the Master configuration on the two-kings fixture. -/
theorem claim_C6_witness :
    configMASTER.blunderChance = 0 ∧ configMASTER.mistakeChance = 0 ∧
    2 ≤ (getLegalMovesForColor twoKingsBoard Color.white).length ∧
    (∃ m,
      (iterativeDeepening witnessBot2 witnessEnv twoKingsBoard
        (searchEntrySt witnessBot2 witnessEnv witnessSt)).1.move = some m ∧
      (botMakeMove witnessBot2 witnessEnv initialGlobals witnessSt).1 =
        some { fromRC := m.fromRC, toRC := m.toRC } ∧
      ∃ rep,
        (botMakeMove witnessBot2 witnessEnv initialGlobals witnessSt).2.2.latestReport =
          some rep ∧ rep.imperfectionApplied.itype = none) :=
  ⟨rfl, rfl, by decide,
    claim_C6_zero_imperfection_is_identity witnessBot2 witnessEnv initialGlobals
      witnessSt rfl rfl (by decide)⟩

end ChessMaster
